import Mathlib

/-!
PandoraPFA: the cluster manager, the pandora type, the mc particle, the track to cluster
association and the layer fit of the cluster helper.

A shallow embedding of `Framework/include/Managers/ClusterManager.h`, `include/PandoraTypes.h`,
`include/Objects/MCParticle.h`, of `TrackClusterAssociationAlgorithm::Run` in
`src/Algorithms/TopologicalAssociation/TrackClusterAssociationAlgorithm.cc` and of
`ClusterHelper::FitLayers` and `ClusterHelper::GetTrackClusterDistance` in
`src/Helpers/ClusterHelper.cc`: the data members of a class become a record, every non-const
member function becomes a function returning its status code together with the successor
state, and every const member function becomes a function that reads the state and returns
its status code together with the new value of each output reference.  A function that can
throw returns `Except`, with the status code of the `StatusCodeException`.

Addresses (`Cluster *`, `const Algorithm *`) are natural numbers.  `std::map` and `std::set`
are association lists and lists; `find` is `List.lookup`.  A `float` is a `FloatValue`: a
number or a NaN, with the comparisons false on a NaN.
-/

namespace pandora

/-! ## Definitions -/

/-- The status codes returned by the member functions embedded here. -/
inductive StatusCode where
  | SUCCESS
  | FAILURE
  | NOT_FOUND
  | NOT_INITIALIZED
  | ALREADY_PRESENT
  | OUT_OF_RANGE
  | INVALID_PARAMETER
  deriving DecidableEq, Repr

/-- The address of a cluster. -/
abbrev Cluster := Nat

/-- The address of an algorithm. -/
abbrev Algorithm := Nat

/-- A cluster list: the addresses of the clusters it holds. -/
abbrev ClusterList := List Cluster

/-- A set of strings (`StringSet`). -/
abbrev StringSet := List String

/-- The class `ClusterManager::AlgorithmInfo`. -/
structure AlgorithmInfo where
  m_parentListName : String
  m_temporaryListNames : StringSet
  m_numberOfListsCreated : Nat
  deriving DecidableEq, Repr

/-- The type `NameToClusterListMap`. -/
abbrev NameToClusterListMap := List (String × ClusterList)

/-- The type `AlgorithmInfoMap`. -/
abbrev AlgorithmInfoMap := List (Algorithm × AlgorithmInfo)

/-- The data members of `ClusterManager`. The static constant `NULL_LIST_NAME` is initialised
outside the header and is a parameter of the functions that read it. -/
structure ClusterManager where
  m_nameToClusterListMap : NameToClusterListMap
  m_algorithmInfoMap : AlgorithmInfoMap
  m_canMakeNewClusters : Bool
  m_currentListName : String
  m_savedLists : StringSet
  deriving DecidableEq, Repr

namespace ClusterManager

/-- The list name is a key of the name to cluster list map. -/
def hasList (m : ClusterManager) (listName : String) : Prop :=
  listName ∈ m.m_nameToClusterListMap.map Prod.fst

instance (m : ClusterManager) (listName : String) : Decidable (m.hasList listName) :=
  inferInstanceAs (Decidable (listName ∈ m.m_nameToClusterListMap.map Prod.fst))

/-- `ClusterManager::GetCurrentListName`: the status and the new value of `clusterListName`. -/
def GetCurrentListName (m : ClusterManager) (clusterListName : String) : StatusCode × String :=
  if m.m_currentListName.isEmpty then
    (StatusCode.NOT_INITIALIZED, clusterListName)
  else
    (StatusCode.SUCCESS, m.m_currentListName)

/-- `ClusterManager::GetAlgorithmInputListName`: the status and the new value of
`clusterListName`. -/
def GetAlgorithmInputListName (m : ClusterManager) (pAlgorithm : Algorithm)
    (clusterListName : String) : StatusCode × String :=
  match m.m_algorithmInfoMap.lookup pAlgorithm with
  | none => m.GetCurrentListName clusterListName
  | some info => (StatusCode.SUCCESS, info.m_parentListName)

/-- `ClusterManager::ResetCurrentListToAlgorithmInputList`: the output reference handed to
`GetAlgorithmInputListName` is the member `m_currentListName` itself, so the old value of the
output is the current list name and its new value is stored back into the member. -/
def ResetCurrentListToAlgorithmInputList (m : ClusterManager) (pAlgorithm : Algorithm) :
    StatusCode × ClusterManager :=
  let r := m.GetAlgorithmInputListName pAlgorithm m.m_currentListName
  (r.1, { m with m_currentListName := r.2 })

/-- `ClusterManager::DropCurrentList`. -/
def DropCurrentList (NULL_LIST_NAME : String) (m : ClusterManager) :
    StatusCode × ClusterManager :=
  (StatusCode.SUCCESS, { m with m_canMakeNewClusters := false, m_currentListName := NULL_LIST_NAME })

/-- `ClusterManager::GetCurrentList`: the status, the new value of `pClusterList` and the new
value of `clusterListName` (which is overwritten whatever it held). The member function
`GetList` is defined outside the header and is a parameter: it reads the manager, the list
name and the old value of the pointer, and gives its status and the new value of the
pointer. `P` is the type of the values of a `const ClusterList *`. -/
def GetCurrentList {P : Type} (GetList : ClusterManager → String → P → StatusCode × P)
    (m : ClusterManager) (pClusterList : P) : StatusCode × P × String :=
  let clusterListName := m.m_currentListName
  let r := GetList m clusterListName pClusterList
  (r.1, r.2, clusterListName)

/-- `ClusterManager::GetAlgorithmInputList`: the status, the new value of `pClusterList` and
the new value of `clusterListName`. -/
def GetAlgorithmInputList {P : Type} (GetList : ClusterManager → String → P → StatusCode × P)
    (m : ClusterManager) (pAlgorithm : Algorithm) (pClusterList : P) : StatusCode × P × String :=
  let clusterListName :=
    match m.m_algorithmInfoMap.lookup pAlgorithm with
    | some info => info.m_parentListName
    | none => m.m_currentListName
  let r := GetList m clusterListName pClusterList
  (r.1, r.2, clusterListName)

/-- `ClusterManager::DeleteCluster(Cluster *pCluster)`, the form that names no list. The form
that names a list is defined outside the header and is the parameter `DeleteClusterInList`,
a function of the manager state, the cluster and the value of the list name. -/
def DeleteCluster
    (DeleteClusterInList : ClusterManager → Cluster → String → StatusCode × ClusterManager)
    (m : ClusterManager) (pCluster : Cluster) : StatusCode × ClusterManager :=
  DeleteClusterInList m pCluster m.m_currentListName

/-- `ClusterManager::DeleteClusters(const ClusterList &clusterList)`, the form that names no
list. The form that names a list is the parameter `DeleteClustersInList`. -/
def DeleteClusters
    (DeleteClustersInList : ClusterManager → ClusterList → String → StatusCode × ClusterManager)
    (m : ClusterManager) (clusterList : ClusterList) : StatusCode × ClusterManager :=
  DeleteClustersInList m clusterList m.m_currentListName

/-- The creation gate: the manager may make new clusters only while the current list is not
the null list. -/
def creationGated (NULL_LIST_NAME : String) (m : ClusterManager) : Prop :=
  m.m_canMakeNewClusters = true → m.m_currentListName ≠ NULL_LIST_NAME

instance (NULL_LIST_NAME : String) (m : ClusterManager) :
    Decidable (creationGated NULL_LIST_NAME m) :=
  inferInstanceAs (Decidable (m.m_canMakeNewClusters = true → m.m_currentListName ≠ NULL_LIST_NAME))

/-- A call of one of the list-switching operations or of one of the const getters of the
header, with the old values of its output references. -/
inductive Op (P : Type) where
  | DropCurrentList
  | ResetCurrentListToAlgorithmInputList (pAlgorithm : Algorithm)
  | GetCurrentListName (clusterListName : String)
  | GetAlgorithmInputListName (pAlgorithm : Algorithm) (clusterListName : String)
  | GetCurrentList (pClusterList : P)
  | GetAlgorithmInputList (pAlgorithm : Algorithm) (pClusterList : P)
  | GetList (listName : String) (pClusterList : P)

/-- The status of a call and the manager state after it. A const member function leaves the
manager as it is. -/
def exec {P : Type} (NULL_LIST_NAME : String)
    (GetList : ClusterManager → String → P → StatusCode × P)
    (m : ClusterManager) : Op P → StatusCode × ClusterManager
  | Op.DropCurrentList => m.DropCurrentList NULL_LIST_NAME
  | Op.ResetCurrentListToAlgorithmInputList pAlgorithm =>
      m.ResetCurrentListToAlgorithmInputList pAlgorithm
  | Op.GetCurrentListName clusterListName => ((m.GetCurrentListName clusterListName).1, m)
  | Op.GetAlgorithmInputListName pAlgorithm clusterListName =>
      ((m.GetAlgorithmInputListName pAlgorithm clusterListName).1, m)
  | Op.GetCurrentList pClusterList => ((m.GetCurrentList GetList pClusterList).1, m)
  | Op.GetAlgorithmInputList pAlgorithm pClusterList =>
      ((m.GetAlgorithmInputList GetList pAlgorithm pClusterList).1, m)
  | Op.GetList listName pClusterList => ((GetList m listName pClusterList).1, m)

/-- The manager state after a sequence of calls, whatever their statuses. -/
def run {P : Type} (NULL_LIST_NAME : String)
    (GetList : ClusterManager → String → P → StatusCode × P)
    (m : ClusterManager) (ops : List (Op P)) : ClusterManager :=
  ops.foldl (fun s op => (exec NULL_LIST_NAME GetList s op).2) m

/-- A manager with a scope record whose input list is no longer registered. -/
def staleInputManager : ClusterManager :=
  { m_nameToClusterListMap := [("NullList", []), ("Input", [1])]
    m_algorithmInfoMap :=
      [(7, { m_parentListName := "Removed", m_temporaryListNames := [],
             m_numberOfListsCreated := 0 })]
    m_canMakeNewClusters := false
    m_currentListName := "Input"
    m_savedLists := ["Input"] }

/-- A manager in which algorithm 7 was registered while the null list was current and has
since made the temporary list "Tmp" current; algorithm 8 was registered under "Tmp". -/
def temporaryListManager : ClusterManager :=
  { m_nameToClusterListMap := [("NullList", []), ("Tmp", [1, 2])]
    m_algorithmInfoMap :=
      [(7, { m_parentListName := "NullList", m_temporaryListNames := ["Tmp"],
             m_numberOfListsCreated := 1 }),
       (8, { m_parentListName := "Tmp", m_temporaryListNames := [],
             m_numberOfListsCreated := 0 })]
    m_canMakeNewClusters := true
    m_currentListName := "Tmp"
    m_savedLists := [] }

/-- A manager whose current list name has never been set. -/
def unsetManager : ClusterManager :=
  { m_nameToClusterListMap := []
    m_algorithmInfoMap := []
    m_canMakeNewClusters := false
    m_currentListName := ""
    m_savedLists := [] }

/-- The association list with the value stored under `k` replaced by `v`; an association
list without the key is left as it is. -/
def setValue {κ β : Type} [DecidableEq κ] (l : List (κ × β)) (k : κ) (v : β) : List (κ × β) :=
  l.map (fun e => if e.1 = k then (k, v) else e)

/-- Modelled from the spec: the member function `MoveClustersToTemporaryListAndSetCurrent` is
declared and documented in the header and defined outside it. This follows
`MoveToTemporaryAndSetCurrent` of section 4.3: an empty selection fails with
`INVALID_PARAMETER` before anything else is looked at; otherwise a temporary name is formed from
the algorithm and its creation counter (`NewTemporaryName`, a parameter), the list of that name
is created (a collision is `ALREADY_PRESENT`), recorded as temporary for the algorithm and made
current; the clusters present in both the selection and the current list move into it, in the
order they had, and the other clusters of the current list stay behind. A failed lookup of a
referenced name is `NOT_FOUND`, an unregistered current list is `NOT_INITIALIZED`, and a
failure leaves the manager and the output name as they were. The spec has no creation flag,
so `m_canMakeNewClusters` is left as it is. The result is the status, the manager and the new
value of `temporaryListName`. -/
def MoveClustersToTemporaryListAndSetCurrent (NewTemporaryName : Algorithm → Nat → String)
    (m : ClusterManager) (pAlgorithm : Algorithm) (originalListName : String)
    (temporaryListName : String) (clustersToMove : ClusterList) :
    StatusCode × ClusterManager × String :=
  if clustersToMove.isEmpty then
    (StatusCode.INVALID_PARAMETER, m, temporaryListName)
  else
    match m.m_algorithmInfoMap.lookup pAlgorithm with
    | none => (StatusCode.NOT_FOUND, m, temporaryListName)
    | some info =>
      match m.m_nameToClusterListMap.lookup originalListName with
      | none => (StatusCode.NOT_FOUND, m, temporaryListName)
      | some _ =>
        match m.m_nameToClusterListMap.lookup m.m_currentListName with
        | none => (StatusCode.NOT_INITIALIZED, m, temporaryListName)
        | some currentList =>
          let newListName := NewTemporaryName pAlgorithm info.m_numberOfListsCreated
          if m.hasList newListName then
            (StatusCode.ALREADY_PRESENT, m, temporaryListName)
          else
            (StatusCode.SUCCESS,
             { m with
               m_nameToClusterListMap :=
                 setValue m.m_nameToClusterListMap m.m_currentListName
                     (currentList.filter (fun c => decide (c ∉ clustersToMove))) ++
                   [(newListName, currentList.filter (fun c => decide (c ∈ clustersToMove)))]
               m_algorithmInfoMap :=
                 setValue m.m_algorithmInfoMap pAlgorithm
                   { info with
                     m_temporaryListNames := info.m_temporaryListNames.insert newListName
                     m_numberOfListsCreated := info.m_numberOfListsCreated + 1 }
               m_currentListName := newListName },
             newListName)

end ClusterManager

/-- The class template `PandoraType<T>` of `PandoraTypes.h`. -/
structure PandoraType (T : Type) where
  m_value : T
  m_isInitialized : Bool
  deriving DecidableEq, Repr

namespace PandoraType

variable {T : Type}

/-- `PandoraType<T>::PandoraType()`: the constructor does not write `m_value`, which holds
whatever `indeterminate` value its storage had. -/
def construct (indeterminate : T) : PandoraType T :=
  { m_value := indeterminate, m_isInitialized := false }

/-- `PandoraType<T>::PandoraType(const T &t)`. -/
def constructFrom (t : T) : PandoraType T :=
  { m_value := t, m_isInitialized := true }

/-- `PandoraType<T>::Set`. -/
def Set (p : PandoraType T) (t : T) : PandoraType T :=
  { p with m_value := t, m_isInitialized := true }

/-- `PandoraType<T>::Get`: the value, or the status code of the `StatusCodeException`
thrown. -/
def Get (p : PandoraType T) : Except StatusCode T :=
  if !p.m_isInitialized then
    Except.error StatusCode.NOT_INITIALIZED
  else
    Except.ok p.m_value

/-- `PandoraType<T>::Reset`. -/
def Reset (p : PandoraType T) : PandoraType T :=
  { p with m_isInitialized := false }

/-- `PandoraType<T>::IsInitialized`. -/
def IsInitialized (p : PandoraType T) : Bool :=
  p.m_isInitialized

/-- `PandoraType<T>::operator=`: the value returned and the object after the assignment. -/
def assign (p : PandoraType T) (rhs : T) : Bool × PandoraType T :=
  let p' := p.Set rhs
  (p'.m_isInitialized, p')

/-- The copy constructor `PandoraType(const PandoraType &)`, which the class does not declare
and the compiler generates: it copies both data members. -/
def copyFrom (source : PandoraType T) : PandoraType T :=
  { m_value := source.m_value, m_isInitialized := source.m_isInitialized }

/-- The copy assignment `operator=(const PandoraType &)`, which the class does not declare and
the compiler generates: it copies both data members. -/
def copyAssign (p : PandoraType T) (source : PandoraType T) : PandoraType T :=
  { p with m_value := source.m_value, m_isInitialized := source.m_isInitialized }

/-- The ways of constructing a `PandoraType<T>`: the two constructors of the class and the
copy constructor generated by the compiler. -/
inductive Construction (T : Type) where
  | default (indeterminate : T)
  | value (t : T)
  | copy (source : PandoraType T)

/-- A call of a member function on a `PandoraType<T>`: the members of the class and the copy
assignment generated by the compiler. -/
inductive Call (T : Type) where
  | Set (t : T)
  | Reset
  | assign (rhs : T)
  | copyAssign (source : PandoraType T)
  | Get
  | IsInitialized

/-- The object a construction gives. -/
def Construction.object : Construction T → PandoraType T
  | Construction.default indeterminate => construct indeterminate
  | Construction.value t => constructFrom t
  | Construction.copy source => copyFrom source

/-- The object after a call; the const member functions leave it as it is. -/
def Call.apply (p : PandoraType T) : Call T → PandoraType T
  | Call.Set t => p.Set t
  | Call.Reset => p.Reset
  | Call.assign rhs => (p.assign rhs).2
  | Call.copyAssign source => p.copyAssign source
  | Call.Get => p
  | Call.IsInitialized => p

/-- The object after a construction and a sequence of calls. -/
def objectAfter (c : Construction T) (calls : List (Call T)) : PandoraType T :=
  calls.foldl Call.apply c.object

/-- The call is a `Set` or an assignment. -/
def Call.storesValue : Call T → Bool
  | Call.Set _ => true
  | Call.assign _ => true
  | Call.copyAssign _ => true
  | _ => false

/-- The construction is the default one. -/
def Construction.isDefault : Construction T → Bool
  | Construction.default _ => true
  | _ => false

/-- The condition of the documentation, on the history of the object: it was default
constructed or `Reset`, and no `Set`, assignment or construction from a value has happened
since. -/
def Uninitialised (c : Construction T) (calls : List (Call T)) : Prop :=
  (c.isDefault = true ∧ ∀ x ∈ calls, x.storesValue = false) ∨
  (∃ before after : List (Call T),
    calls = before ++ Call.Reset :: after ∧ ∀ x ∈ after, x.storesValue = false)

/-- Whether the construction leaves the object holding a value: the default construction does
not, the construction from a value does, and a copy does when its source holds one. -/
def Construction.initialises : Construction T → Bool
  | Construction.default _ => false
  | Construction.value _ => true
  | Construction.copy source => source.IsInitialized

/-- What a call writes to the object: `some true` when it leaves the object holding a value
(`Set`, the assignment of a value, the copy of an object that holds one), `some false` when it
leaves it without one (`Reset`, the copy of an object that holds none), and `none` for the
const member functions, which write nothing. -/
def Call.writes : Call T → Option Bool
  | Call.Set _ => some true
  | Call.Reset => some false
  | Call.assign _ => some true
  | Call.copyAssign source => some source.IsInitialized
  | Call.Get => none
  | Call.IsInitialized => none

/-- The condition on the history of the object, with the copies counted: the last event that
writes the object (the construction or a later call) is a default construction, a `Reset`, or
a copy of an object that holds no value. -/
def LastWriteUninitialised (c : Construction T) (calls : List (Call T)) : Prop :=
  (c.initialises = false ∧ ∀ x ∈ calls, x.writes = none) ∨
  (∃ (before after : List (Call T)) (x : Call T),
    calls = before ++ x :: after ∧ x.writes = some false ∧ ∀ y ∈ after, y.writes = none)

end PandoraType

/-- The value of a `MCParticle *`; `NULL` is the address zero. -/
abbrev MCParticleAddress := Nat

/-- The null pointer. -/
def NULL : Nat := 0

/-- The type `MCParticleList`, a `std::set` of particle addresses. -/
abbrev MCParticleList := Finset MCParticleAddress

/-- The result of `std::set::insert`: the set after the call and the member `second` of the
pair returned, which tells whether the element was inserted. -/
def setInsert (s : Finset Nat) (x : Nat) : Finset Nat × Bool :=
  (insert x s, decide (x ∉ s))

/-- The data members of `MCParticle` that the target and list functions of `MCParticle.h` read
or write; the identifier and the kinematic properties are left out. -/
structure MCParticle where
  m_pPfoTarget : MCParticleAddress
  m_daughterList : MCParticleList
  m_parentList : MCParticleList
  deriving DecidableEq

namespace MCParticle

/-- `MCParticle::IsRootParticle`. -/
def IsRootParticle (m : MCParticle) : Bool :=
  decide (m.m_parentList = ∅)

/-- `MCParticle::IsPfoTargetSet`. -/
def IsPfoTargetSet (m : MCParticle) : Bool :=
  decide (NULL ≠ m.m_pPfoTarget)

/-- `MCParticle::GetPfoTarget`: the status and the new value of `pMCParticle`. -/
def GetPfoTarget (m : MCParticle) (pMCParticle : MCParticleAddress) :
    StatusCode × MCParticleAddress :=
  if NULL = m.m_pPfoTarget then
    (StatusCode.NOT_INITIALIZED, pMCParticle)
  else
    (StatusCode.SUCCESS, m.m_pPfoTarget)

/-- `MCParticle::AddDaughter`. -/
def AddDaughter (m : MCParticle) (pMCParticle : MCParticleAddress) : StatusCode × MCParticle :=
  let r := setInsert m.m_daughterList pMCParticle
  if !r.2 then
    (StatusCode.ALREADY_PRESENT, { m with m_daughterList := r.1 })
  else
    (StatusCode.SUCCESS, { m with m_daughterList := r.1 })

/-- `MCParticle::AddParent`. -/
def AddParent (m : MCParticle) (pMCParticle : MCParticleAddress) : StatusCode × MCParticle :=
  let r := setInsert m.m_parentList pMCParticle
  if !r.2 then
    (StatusCode.ALREADY_PRESENT, { m with m_parentList := r.1 })
  else
    (StatusCode.SUCCESS, { m with m_parentList := r.1 })

/-- `MCParticle::RemoveDaughter`. -/
def RemoveDaughter (m : MCParticle) (pMCParticle : MCParticleAddress) :
    StatusCode × MCParticle :=
  if pMCParticle ∉ m.m_daughterList then
    (StatusCode.NOT_FOUND, m)
  else
    (StatusCode.SUCCESS, { m with m_daughterList := m.m_daughterList.erase pMCParticle })

/-- `MCParticle::RemoveParent`. -/
def RemoveParent (m : MCParticle) (pMCParticle : MCParticleAddress) :
    StatusCode × MCParticle :=
  if pMCParticle ∉ m.m_parentList then
    (StatusCode.NOT_FOUND, m)
  else
    (StatusCode.SUCCESS, { m with m_parentList := m.m_parentList.erase pMCParticle })

/-- `MCParticle::SetPfoTarget`. -/
def SetPfoTarget (m : MCParticle) (pMCParticle : MCParticleAddress) : StatusCode × MCParticle :=
  if NULL = pMCParticle then
    (StatusCode.FAILURE, m)
  else
    (StatusCode.SUCCESS, { m with m_pPfoTarget := pMCParticle })

/-- A particle with no target, the daughters 4 and 5 and the parent 9. -/
def exampleParticle : MCParticle :=
  { m_pPfoTarget := NULL, m_daughterList := {4, 5}, m_parentList := {9} }

/-- A particle with the daughters 4 and 5 and no parent. -/
def rootParticle : MCParticle :=
  { m_pPfoTarget := NULL, m_daughterList := {4, 5}, m_parentList := ∅ }

end MCParticle

/-- A value of the type `float`: a number, of an ordered type `R` that stands for the finite
values and the two infinities, or a NaN. -/
inductive FloatValue (R : Type) where
  | number (r : R)
  | NaN
  deriving DecidableEq, Repr

namespace FloatValue

variable {R : Type}

/-- The comparison `<` of two values of type `float`: false when either is a NaN. -/
def lt [LT R] : FloatValue R → FloatValue R → Prop
  | number x, number y => x < y
  | _, _ => False

/-- The comparison `<=` of two values of type `float`: false when either is a NaN. -/
def le [LE R] : FloatValue R → FloatValue R → Prop
  | number x, number y => x ≤ y
  | _, _ => False

instance [LT R] : LT (FloatValue R) := ⟨lt⟩

instance [LE R] : LE (FloatValue R) := ⟨le⟩

instance decLt [LT R] [∀ a b : R, Decidable (a < b)] : ∀ a b : FloatValue R, Decidable (a < b)
  | number x, number y => inferInstanceAs (Decidable (x < y))
  | number _, NaN => isFalse (fun h => h)
  | NaN, _ => isFalse (fun h => h)

instance decLe [LE R] [∀ a b : R, Decidable (a ≤ b)] : ∀ a b : FloatValue R, Decidable (a ≤ b)
  | number x, number y => inferInstanceAs (Decidable (x ≤ y))
  | number _, NaN => isFalse (fun h => h)
  | NaN, _ => isFalse (fun h => h)

/-- The number a value of type `float` holds, and nothing for a NaN. -/
def toOption : FloatValue R → Option R
  | number r => some r
  | NaN => none

end FloatValue

/-- The address of a track. -/
abbrev Track := Nat

/-- The address of a track state. -/
abbrev TrackState := Nat

namespace ClusterHelper

/-- The address of a calo hit. -/
abbrev CaloHit := Nat

/-- A pseudo layer, an `unsigned int`. -/
abbrev PseudoLayer := Nat

/-- The type `OrderedCaloHitList`, a map from a pseudo layer to the hits of that layer: its
entries in the order of iteration. -/
abbrev OrderedCaloHitList := List (PseudoLayer × List CaloHit)

/-- The type `ClusterFitPointList`; the fit point `ClusterFitPoint(*hitIter)` is given by the
hit it is constructed from. -/
abbrev ClusterFitPointList := List CaloHit

/-- The entries of the map come by strictly increasing pseudo layer, as `std::map` iterates
them. -/
def IsOrdered (orderedCaloHitList : OrderedCaloHitList) : Prop :=
  orderedCaloHitList.Pairwise (fun a b => a.1 < b.1)

instance (orderedCaloHitList : OrderedCaloHitList) : Decidable (IsOrdered orderedCaloHitList) :=
  inferInstanceAs (Decidable (orderedCaloHitList.Pairwise
    (fun (a b : PseudoLayer × List CaloHit) => a.1 < b.1)))

/-- The constructor `ClusterFitPoint::ClusterFitPoint(const CaloHit *)` (lines 589 to 596): the
fit point, given by the hit it is constructed from, or the status code of the
`StatusCodeException` thrown. The accessors of `CaloHit` and `CartesianVector` are parameters:
`positionIsInitialized` is `m_position.IsInitialized()` for the position vector of the hit,
and `cellSizeIsZero` is the comparison `0 == m_cellSize` for the square root of the product
of the two cell sizes of the hit. -/
def ClusterFitPoint (positionIsInitialized cellSizeIsZero : CaloHit → Bool)
    (pCaloHit : CaloHit) : Except StatusCode CaloHit :=
  if !positionIsInitialized pCaloHit || cellSizeIsZero pCaloHit then
    Except.error StatusCode.INVALID_PARAMETER
  else
    Except.ok pCaloHit

/-- `ClusterHelper::FitPoints(const ClusterFitPointList &, ClusterFitResult &)`: the test on
the number of points (lines 151 and 152), followed by the fit in floating point arithmetic
(lines 154 to 183), which is the parameter `fit`: from the points and the old value of
`clusterFitResult` it gives the status and the new value of `clusterFitResult`, or the status
code of an exception. -/
def FitPoints {R : Type} (fit : ClusterFitPointList → R → Except StatusCode (StatusCode × R))
    (clusterFitPointList : ClusterFitPointList) (clusterFitResult : R) :
    Except StatusCode (StatusCode × R) :=
  if clusterFitPointList.length ≤ 1 then
    Except.ok (StatusCode.INVALID_PARAMETER, clusterFitResult)
  else
    fit clusterFitPointList clusterFitResult

/-- The loop of `ClusterHelper::FitLayers` over the hits of one layer (lines 113 to 116), from
the hits still to visit and the fit points collected so far: the fit points after the loop,
or the status code of the exception thrown by the constructor of a fit point. -/
def fitLayersHitLoop (positionIsInitialized cellSizeIsZero : CaloHit → Bool) :
    List CaloHit → ClusterFitPointList → Except StatusCode ClusterFitPointList
  | [], clusterFitPointList => Except.ok clusterFitPointList
  | pCaloHit :: rest, clusterFitPointList =>
    match ClusterFitPoint positionIsInitialized cellSizeIsZero pCaloHit with
    | Except.error statusCode => Except.error statusCode
    | Except.ok point =>
      fitLayersHitLoop positionIsInitialized cellSizeIsZero rest (clusterFitPointList ++ [point])

/-- The loop of `ClusterHelper::FitLayers` over the layers (lines 103 to 117), from the
entries still to visit and the fit points collected so far: the fit points after the loop,
or the status code of the exception thrown by the constructor of a fit point. -/
def fitLayersLoop (positionIsInitialized cellSizeIsZero : CaloHit → Bool)
    (startLayer endLayer : PseudoLayer) :
    OrderedCaloHitList → ClusterFitPointList → Except StatusCode ClusterFitPointList
  | [], clusterFitPointList => Except.ok clusterFitPointList
  | (pseudoLayer, hits) :: rest, clusterFitPointList =>
    if startLayer > pseudoLayer then
      fitLayersLoop positionIsInitialized cellSizeIsZero startLayer endLayer rest
        clusterFitPointList
    else if endLayer < pseudoLayer then
      Except.ok clusterFitPointList
    else
      match fitLayersHitLoop positionIsInitialized cellSizeIsZero hits clusterFitPointList with
      | Except.error statusCode => Except.error statusCode
      | Except.ok points =>
        fitLayersLoop positionIsInitialized cellSizeIsZero startLayer endLayer rest points

/-- `ClusterHelper::FitLayers`, from the ordered calo hit list of the cluster: the status and
the new value of `clusterFitResult`, or the status code of the exception that leaves the
function. The size of the list is stored in an `unsigned int` of 32 bits. -/
def FitLayers {R : Type} (positionIsInitialized cellSizeIsZero : CaloHit → Bool)
    (fit : ClusterFitPointList → R → Except StatusCode (StatusCode × R))
    (orderedCaloHitList : OrderedCaloHitList) (startLayer endLayer : PseudoLayer)
    (clusterFitResult : R) : Except StatusCode (StatusCode × R) :=
  if startLayer ≥ endLayer then
    Except.ok (StatusCode.INVALID_PARAMETER, clusterFitResult)
  else
    let listSize := orderedCaloHitList.length % 4294967296
    if 0 = listSize then
      Except.ok (StatusCode.NOT_INITIALIZED, clusterFitResult)
    else if listSize < 2 then
      Except.ok (StatusCode.OUT_OF_RANGE, clusterFitResult)
    else
      match fitLayersLoop positionIsInitialized cellSizeIsZero startLayer endLayer
          orderedCaloHitList [] with
      | Except.error statusCode => Except.error statusCode
      | Except.ok clusterFitPointList => FitPoints fit clusterFitPointList clusterFitResult

/-- The fit points in the words of the claim: the hits whose pseudo layer `L` satisfies
`startLayer <= L <= endLayer`, layer by layer. -/
def hitsInLayers (startLayer endLayer : PseudoLayer) (orderedCaloHitList : OrderedCaloHitList) :
    ClusterFitPointList :=
  (orderedCaloHitList.filter
    (fun e => decide (startLayer ≤ e.1 ∧ e.1 ≤ endLayer))).flatMap Prod.snd

/-- The constructor of a fit point accepts the hit: its position is initialised and its cell
size is not zero. -/
def IsFitPoint (positionIsInitialized cellSizeIsZero : CaloHit → Bool) (pCaloHit : CaloHit) :
    Bool :=
  positionIsInitialized pCaloHit && !cellSizeIsZero pCaloHit

/-- The fit of the examples: it succeeds and stores the number of points. -/
def exampleFit (clusterFitPointList : ClusterFitPointList) (_clusterFitResult : Nat) :
    Except StatusCode (StatusCode × Nat) :=
  Except.ok (StatusCode.SUCCESS, clusterFitPointList.length)

/-- The ordered calo hit list of the examples: hit 10 in layer 1, hits 20 and 21 in layer 2,
hit 50 in layer 5 and hit 70 in layer 7. -/
def exampleHits : OrderedCaloHitList :=
  [(1, [10]), (2, [20, 21]), (5, [50]), (7, [70])]

/-- Every hit of the examples has an initialised position. -/
def examplePositionIsInitialized (_pCaloHit : CaloHit) : Bool :=
  true

/-- No hit of the examples has a cell size of zero. -/
def exampleCellSizeIsNeverZero (_pCaloHit : CaloHit) : Bool :=
  false

/-- The hit 50, and no other hit, has a cell size of zero. -/
def exampleCellSizeIsZero (pCaloHit : CaloHit) : Bool :=
  pCaloHit == 50

/-- The member functions of `Cluster`, `Track`, `TrackState`, `CaloHit` and `CartesianVector`
that `GetTrackClusterDistance` calls, and `std::fabs`; the classes are defined outside the
source files at hand. `D` is the type `float`. For a track state and a hit,
`parallelDistance` is `trackDirection.GetDotProduct(positionDifference)` and
`perpendicularDistance` is `trackDirection.GetCrossProduct(positionDifference).GetMagnitude()`,
where `positionDifference` is the position vector of the hit minus the position of the track
state and `trackDirection` is the unit vector of the momentum of the track state.
`GetCalorimeterProjections` gives the track states in the order of iteration. -/
structure Accessors (D : Type) where
  GetNCaloHits : Cluster → Nat
  GetInnerPseudoLayer : Cluster → PseudoLayer
  GetOrderedCaloHitList : Cluster → OrderedCaloHitList
  GetTrackStateAtECal : Track → TrackState
  GetCalorimeterProjections : Track → List TrackState
  parallelDistance : TrackState → CaloHit → D
  perpendicularDistance : TrackState → CaloHit → D
  fabs : D → D

/-- The body of the loop over the hits of a layer in
`GetTrackClusterDistance(const TrackState &, ...)` (lines 551 to 566), on the local variables
`distanceFound` and `minDistance`. -/
def trackStateHitStep {D : Type} [LT D] [∀ a b : D, Decidable (a < b)] (acc : Accessors D)
    (trackState : TrackState) (parallelDistanceCut : D) (s : Bool × D) (pCaloHit : CaloHit) :
    Bool × D :=
  if acc.fabs (acc.parallelDistance trackState pCaloHit) > parallelDistanceCut then
    s
  else if acc.perpendicularDistance trackState pCaloHit < s.2 then
    (true, acc.perpendicularDistance trackState pCaloHit)
  else
    s

/-- The loop over the layers in `GetTrackClusterDistance(const TrackState &, ...)` (lines 546
to 567), from the entries still to visit and the values of `distanceFound` and
`minDistance`: their values after the loop. -/
def trackStateLayerLoop {D : Type} [LT D] [∀ a b : D, Decidable (a < b)] (acc : Accessors D)
    (trackState : TrackState) (maxSearchLayer : PseudoLayer) (parallelDistanceCut : D) :
    OrderedCaloHitList → Bool × D → Bool × D
  | [], s => s
  | (pseudoLayer, hits) :: rest, s =>
    if pseudoLayer > maxSearchLayer then
      s
    else
      trackStateLayerLoop acc trackState maxSearchLayer parallelDistanceCut rest
        (hits.foldl (trackStateHitStep acc trackState parallelDistanceCut) s)

/-- `ClusterHelper::GetTrackClusterDistance(const TrackState &, const Cluster *, ...)` (lines
533 to 574): the status and the new value of `trackClusterDistance`. `floatMax` is
`std::numeric_limits<float>::max()`. -/
def GetTrackClusterDistanceOfTrackState {D : Type} [LT D] [∀ a b : D, Decidable (a < b)]
    (acc : Accessors D) (floatMax : D) (trackState : TrackState) (pCluster : Cluster)
    (maxSearchLayer : PseudoLayer) (parallelDistanceCut : D) (trackClusterDistance : D) :
    StatusCode × D :=
  if 0 = acc.GetNCaloHits pCluster ∨ acc.GetInnerPseudoLayer pCluster > maxSearchLayer then
    (StatusCode.NOT_FOUND, trackClusterDistance)
  else
    let r := trackStateLayerLoop acc trackState maxSearchLayer parallelDistanceCut
      (acc.GetOrderedCaloHitList pCluster) (false, floatMax)
    if !r.1 then
      (StatusCode.NOT_FOUND, trackClusterDistance)
    else
      (StatusCode.SUCCESS, r.2)

/-- The body of the loop over the calorimeter projections in
`GetTrackClusterDistance(const Track *, ...)` (lines 516 to 522), on the local variables
`distanceFound` and `minDistance`; `minDistance` is the output argument of the call. -/
def projectionStep {D : Type} [LT D] [∀ a b : D, Decidable (a < b)] (acc : Accessors D)
    (floatMax : D) (pCluster : Cluster) (maxSearchLayer : PseudoLayer)
    (parallelDistanceCut : D) (s : Bool × D) (pTrackState : TrackState) : Bool × D :=
  let r := GetTrackClusterDistanceOfTrackState acc floatMax pTrackState pCluster
    maxSearchLayer parallelDistanceCut s.2
  if StatusCode.SUCCESS = r.1 then
    (true, r.2)
  else
    (s.1, r.2)

/-- `ClusterHelper::GetTrackClusterDistance(const Track *, const Cluster *, ...)` (lines 503
to 529): the status and the new value of `trackClusterDistance`. -/
def GetTrackClusterDistance {D : Type} [LT D] [∀ a b : D, Decidable (a < b)]
    (acc : Accessors D) (floatMax : D) (pTrack : Track) (pCluster : Cluster)
    (maxSearchLayer : PseudoLayer) (parallelDistanceCut : D) (trackClusterDistance : D) :
    StatusCode × D :=
  if 0 = acc.GetNCaloHits pCluster ∨ acc.GetInnerPseudoLayer pCluster > maxSearchLayer then
    (StatusCode.NOT_FOUND, trackClusterDistance)
  else
    let first := GetTrackClusterDistanceOfTrackState acc floatMax
      (acc.GetTrackStateAtECal pTrack) pCluster maxSearchLayer parallelDistanceCut floatMax
    let s := (acc.GetCalorimeterProjections pTrack).foldl
      (projectionStep acc floatMax pCluster maxSearchLayer parallelDistanceCut)
      (decide (StatusCode.SUCCESS = first.1), first.2)
    if !s.1 then
      (StatusCode.NOT_FOUND, trackClusterDistance)
    else
      (StatusCode.SUCCESS, s.2)

/-- What the loops of `GetTrackClusterDistance` have established about `distanceFound` and
`minDistance`: `minDistance` is a number no larger than the largest float `fm`, and smaller
when a distance has been found. -/
def DistanceFound {R : Type} [LinearOrder R] (fm : R) (s : Bool × FloatValue R) : Prop :=
  ∃ q, s.2 = FloatValue.number q ∧ q ≤ fm ∧ (s.1 = true → q < fm)

/-- The objects of the examples. Cluster 4 has no hit; every other cluster `c` has the single
hit `c`, in layer 1. Every track has the track state 0 at the calorimeter and no
calorimeter projection. Every hit is at the parallel distance 0; hit 1 is at the
perpendicular distance 1 and every other hit at the perpendicular distance 5. -/
def exampleAccessors : Accessors (FloatValue Nat) :=
  { GetNCaloHits := fun pCluster => if pCluster = 4 then 0 else 1
    GetInnerPseudoLayer := fun _ => 1
    GetOrderedCaloHitList := fun pCluster => if pCluster = 4 then [] else [(1, [pCluster])]
    GetTrackStateAtECal := fun _ => 0
    GetCalorimeterProjections := fun _ => []
    parallelDistance := fun _ _ => FloatValue.number 0
    perpendicularDistance := fun _ pCaloHit =>
      if pCaloHit = 1 then FloatValue.number 1 else FloatValue.number 5
    fabs := fun d => d }

end ClusterHelper

namespace TrackClusterAssociationAlgorithm

/-- The local variables of `TrackClusterAssociationAlgorithm::Run` that the loop over the
clusters writes. A cluster pointer is `none` when it is `NULL`. `D` is the type of the
distances, a `float`. -/
structure Search (D : Type) where
  pBestCluster : Option Cluster
  pBestLowEnergyCluster : Option Cluster
  minDistance : D
  minLowEnergyDistance : D
  deriving DecidableEq, Repr

/-- The body of the loop over the clusters in `Run` (lines 41 to 64).
`GetTrackClusterDistance` stands for `ClusterHelper::GetTrackClusterDistance` called with the
members `m_maxSearchLayer` and `m_parallelDistanceCut`: from the track, the cluster and the old
value of `trackClusterDistance` it gives the status and the new value of
`trackClusterDistance`. `GetHadronicEnergy` stands for `Cluster::GetHadronicEnergy`, and
`floatMax` for `std::numeric_limits<float>::max()`. The types `D` and `E` of the distances
and of the energies are `float`; only their comparison `<` is used. -/
def searchStep {D E : Type} [LT D] [∀ a b : D, Decidable (a < b)] [LT E]
    [∀ a b : E, Decidable (a < b)]
    (GetTrackClusterDistance : Track → Cluster → D → StatusCode × D)
    (GetHadronicEnergy : Cluster → E) (floatMax : D) (m_lowEnergyCut : E) (pTrack : Track)
    (s : Search D) (pCluster : Cluster) : Search D :=
  let r := GetTrackClusterDistance pTrack pCluster floatMax
  if StatusCode.SUCCESS ≠ r.1 then
    s
  else
    let trackClusterDistance := r.2
    if GetHadronicEnergy pCluster > m_lowEnergyCut then
      if trackClusterDistance < s.minDistance then
        { s with minDistance := trackClusterDistance, pBestCluster := some pCluster }
      else
        s
    else
      if trackClusterDistance < s.minLowEnergyDistance then
        { s with minLowEnergyDistance := trackClusterDistance,
                 pBestLowEnergyCluster := some pCluster }
      else
        s

/-- The local variables of `Run` after the loop over the clusters of the current list, for
one track (lines 32 to 64). The clusters are given in the order of iteration. -/
def search {D E : Type} [LT D] [∀ a b : D, Decidable (a < b)] [LT E]
    [∀ a b : E, Decidable (a < b)]
    (GetTrackClusterDistance : Track → Cluster → D → StatusCode × D)
    (GetHadronicEnergy : Cluster → E) (floatMax : D) (m_lowEnergyCut : E) (pTrack : Track)
    (pClusterList : ClusterList) : Search D :=
  pClusterList.foldl
    (searchStep GetTrackClusterDistance GetHadronicEnergy floatMax m_lowEnergyCut pTrack)
    { pBestCluster := none, pBestLowEnergyCluster := none,
      minDistance := floatMax, minLowEnergyDistance := floatMax }

/-- What the loop has established once the clusters of `seen` have been visited: a cluster
pointer that is not `NULL` is a cluster visited, for which `GetTrackClusterDistance`
succeeded with the minimum kept, and whose energy put it on that side of the energy cut. -/
def SearchInvariant {D E : Type} [LT D] [∀ a b : D, Decidable (a < b)] [LT E]
    [∀ a b : E, Decidable (a < b)]
    (GetTrackClusterDistance : Track → Cluster → D → StatusCode × D)
    (GetHadronicEnergy : Cluster → E) (floatMax : D) (m_lowEnergyCut : E) (pTrack : Track)
    (seen : ClusterList) (s : Search D) : Prop :=
  (∀ c, s.pBestCluster = some c →
    c ∈ seen ∧
    GetTrackClusterDistance pTrack c floatMax = (StatusCode.SUCCESS, s.minDistance) ∧
    m_lowEnergyCut < GetHadronicEnergy c) ∧
  (∀ c, s.pBestLowEnergyCluster = some c →
    c ∈ seen ∧
    GetTrackClusterDistance pTrack c floatMax = (StatusCode.SUCCESS, s.minLowEnergyDistance) ∧
    ¬ m_lowEnergyCut < GetHadronicEnergy c)

/-- The call of line 45: `ClusterHelper::GetTrackClusterDistance` for the track and the
cluster, with the members `m_maxSearchLayer` and `m_parallelDistanceCut`. -/
def callGetTrackClusterDistance {D : Type} [LT D] [∀ a b : D, Decidable (a < b)]
    (acc : ClusterHelper.Accessors D) (floatMax : D)
    (m_maxSearchLayer : ClusterHelper.PseudoLayer) (m_parallelDistanceCut : D)
    (pTrack : Track) (pCluster : Cluster) (trackClusterDistance : D) : StatusCode × D :=
  ClusterHelper.GetTrackClusterDistance acc floatMax pTrack pCluster m_maxSearchLayer
    m_parallelDistanceCut trackClusterDistance

/-- The distances of the examples, given by `ClusterHelper::GetTrackClusterDistance` for the
objects of `exampleAccessors`, the largest float 1000, `m_maxSearchLayer` 10 and
`m_parallelDistanceCut` 100: cluster 1 is at distance 1, every other cluster at distance 5,
and for cluster 4, which has no hit, the helper fails. -/
def exampleDistance (pTrack : Track) (pCluster : Cluster)
    (trackClusterDistance : FloatValue Nat) : StatusCode × FloatValue Nat :=
  callGetTrackClusterDistance ClusterHelper.exampleAccessors (FloatValue.number 1000) 10
    (FloatValue.number 100) pTrack pCluster trackClusterDistance

/-- The hadronic energies of the examples: cluster 1 has energy 2, the energy of cluster 6 is
a NaN, and every other cluster has energy 10. -/
def exampleEnergy (pCluster : Cluster) : FloatValue Nat :=
  if pCluster = 1 then FloatValue.number 2
  else if pCluster = 6 then FloatValue.NaN
  else FloatValue.number 10

/-- The final distance cut of `Run` (lines 66 to 76): the value of `pMatchedCluster`. -/
def matchedCluster {D : Type} [LT D] [∀ a b : D, Decidable (a < b)]
    (m_maxTrackClusterDistance : D) (s : Search D) : Option Cluster :=
  if s.minDistance < m_maxTrackClusterDistance ∧ none ≠ s.pBestCluster then
    s.pBestCluster
  else if s.minLowEnergyDistance < m_maxTrackClusterDistance ∧
      none ≠ s.pBestLowEnergyCluster then
    s.pBestLowEnergyCluster
  else
    none

/-- Modelled from the spec: the macro `PANDORA_RETURN_RESULT_IF`, used in `Run` as
`PANDORA_RETURN_RESULT_IF(STATUS_CODE_SUCCESS, !=, Command)`, is defined outside the source
files at hand. By section 7 a result code is propagated to the caller on the first failure:
the enclosing function returns the status of the command when that status differs from the
one named. This tells whether it returns. -/
def returnsResultIfNot (expected statusCode : StatusCode) : Bool :=
  decide (statusCode ≠ expected)

/-- The loop over the tracks of `Run` (lines 27 to 83), from the tracks still to visit and the
calls of `PandoraContentApi::AddTrackClusterAssociation` made so far: the status with which
`Run` returns and all the calls made, in order. `AddTrackClusterAssociation` gives the status
of a call from the calls made before it in this run, the track and the cluster. -/
def trackLoop {D E : Type} [LT D] [∀ a b : D, Decidable (a < b)] [LT E]
    [∀ a b : E, Decidable (a < b)]
    (AddTrackClusterAssociation : List (Track × Cluster) → Track → Cluster → StatusCode)
    (GetTrackClusterDistance : Track → Cluster → D → StatusCode × D)
    (GetHadronicEnergy : Cluster → E) (floatMax : D) (m_lowEnergyCut : E)
    (m_maxTrackClusterDistance : D) (pClusterList : ClusterList) :
    List Track → List (Track × Cluster) → StatusCode × List (Track × Cluster)
  | [], calls => (StatusCode.SUCCESS, calls)
  | pTrack :: rest, calls =>
    match matchedCluster m_maxTrackClusterDistance
        (search GetTrackClusterDistance GetHadronicEnergy floatMax m_lowEnergyCut pTrack
          pClusterList) with
    | none =>
      trackLoop AddTrackClusterAssociation GetTrackClusterDistance GetHadronicEnergy floatMax
        m_lowEnergyCut m_maxTrackClusterDistance pClusterList rest calls
    | some pMatchedCluster =>
      if returnsResultIfNot StatusCode.SUCCESS
          (AddTrackClusterAssociation calls pTrack pMatchedCluster) then
        (AddTrackClusterAssociation calls pTrack pMatchedCluster,
          calls ++ [(pTrack, pMatchedCluster)])
      else
        trackLoop AddTrackClusterAssociation GetTrackClusterDistance GetHadronicEnergy floatMax
          m_lowEnergyCut m_maxTrackClusterDistance pClusterList rest
          (calls ++ [(pTrack, pMatchedCluster)])

/-- `TrackClusterAssociationAlgorithm::Run`: the status returned and the calls of
`AddTrackClusterAssociation` made, in order. `GetCurrentTrackList` and `GetCurrentClusterList`
are the status and the list each of these calls gives, in the order of iteration, and
`RemoveAllTrackClusterAssociations` is the status of that call. -/
def Run {D E : Type} [LT D] [∀ a b : D, Decidable (a < b)] [LT E]
    [∀ a b : E, Decidable (a < b)]
    (GetCurrentTrackList : StatusCode × List Track)
    (GetCurrentClusterList : StatusCode × ClusterList)
    (RemoveAllTrackClusterAssociations : StatusCode)
    (AddTrackClusterAssociation : List (Track × Cluster) → Track → Cluster → StatusCode)
    (GetTrackClusterDistance : Track → Cluster → D → StatusCode × D)
    (GetHadronicEnergy : Cluster → E) (floatMax : D) (m_lowEnergyCut : E)
    (m_maxTrackClusterDistance : D) : StatusCode × List (Track × Cluster) :=
  if returnsResultIfNot StatusCode.SUCCESS GetCurrentTrackList.1 then
    (GetCurrentTrackList.1, [])
  else if returnsResultIfNot StatusCode.SUCCESS GetCurrentClusterList.1 then
    (GetCurrentClusterList.1, [])
  else if returnsResultIfNot StatusCode.SUCCESS RemoveAllTrackClusterAssociations then
    (RemoveAllTrackClusterAssociations, [])
  else
    trackLoop AddTrackClusterAssociation GetTrackClusterDistance GetHadronicEnergy floatMax
      m_lowEnergyCut m_maxTrackClusterDistance GetCurrentClusterList.2 GetCurrentTrackList.2 []

/-- The distance with which a cluster competes among the clusters above the energy cut: the
number `GetTrackClusterDistance` gives when it succeeds and the hadronic energy of the
cluster is above `m_lowEnergyCut`. -/
def highCandidate {R E : Type} [LT E] [∀ a b : E, Decidable (a < b)]
    (GetTrackClusterDistance : Track → Cluster → FloatValue R → StatusCode × FloatValue R)
    (GetHadronicEnergy : Cluster → E) (floatMax : FloatValue R) (m_lowEnergyCut : E)
    (pTrack : Track) (pCluster : Cluster) : Option R :=
  if (GetTrackClusterDistance pTrack pCluster floatMax).1 = StatusCode.SUCCESS ∧
      m_lowEnergyCut < GetHadronicEnergy pCluster then
    (GetTrackClusterDistance pTrack pCluster floatMax).2.toOption
  else
    none

/-- The distance with which a cluster competes among the clusters at or below the energy
cut, in the words of the claim. -/
def lowCandidate {R E : Type} [LE E] [∀ a b : E, Decidable (a ≤ b)]
    (GetTrackClusterDistance : Track → Cluster → FloatValue R → StatusCode × FloatValue R)
    (GetHadronicEnergy : Cluster → E) (floatMax : FloatValue R) (m_lowEnergyCut : E)
    (pTrack : Track) (pCluster : Cluster) : Option R :=
  if (GetTrackClusterDistance pTrack pCluster floatMax).1 = StatusCode.SUCCESS ∧
      GetHadronicEnergy pCluster ≤ m_lowEnergyCut then
    (GetTrackClusterDistance pTrack pCluster floatMax).2.toOption
  else
    none

/-- The distance with which a cluster competes among the clusters whose hadronic energy is
not above the energy cut: at or below it, or not comparable with it because one of the two is
a NaN. -/
def notAboveCandidate {R E : Type} [LT E] [∀ a b : E, Decidable (a < b)]
    (GetTrackClusterDistance : Track → Cluster → FloatValue R → StatusCode × FloatValue R)
    (GetHadronicEnergy : Cluster → E) (floatMax : FloatValue R) (m_lowEnergyCut : E)
    (pTrack : Track) (pCluster : Cluster) : Option R :=
  if (GetTrackClusterDistance pTrack pCluster floatMax).1 = StatusCode.SUCCESS ∧
      ¬ m_lowEnergyCut < GetHadronicEnergy pCluster then
    (GetTrackClusterDistance pTrack pCluster floatMax).2.toOption
  else
    none

/-- The nearest cluster in the words of the claim, with its distance: among the clusters of
the list that compete (`distance` gives `some`), one at the smallest distance, and among
clusters at equal distance the first in list order. -/
def nearest {D : Type} [LinearOrder D] (distance : Cluster → Option D) :
    ClusterList → Option (Cluster × D)
  | [] => none
  | c :: cs =>
    match distance c, nearest distance cs with
    | none, later => later
    | some d, none => some (c, d)
    | some d, some (c', d') => if d ≤ d' then some (c, d) else some (c', d')

/-- The matched cluster in the words of the claim, from the distances `high` with which the
clusters of the first kind compete and the distances `low` with which the clusters of the
second kind compete: the nearest cluster of the first kind if its distance is below
`m_maxTrackClusterDistance`; otherwise the nearest cluster of the second kind if its distance
is below `m_maxTrackClusterDistance`; otherwise none. -/
def nearestMatch {R : Type} [LinearOrder R] (high low : Cluster → Option R)
    (m_maxTrackClusterDistance : FloatValue R) (pClusterList : ClusterList) :
    Option Cluster :=
  match (nearest high pClusterList).filter
      (fun r => decide (FloatValue.number r.2 < m_maxTrackClusterDistance)) with
  | some r => some r.1
  | none =>
    match (nearest low pClusterList).filter
        (fun r => decide (FloatValue.number r.2 < m_maxTrackClusterDistance)) with
    | some r => some r.1
    | none => none

/-- One pass of a loop that keeps the first cluster at the smallest distance seen, from the
cluster and distance kept so far. -/
def keepNearer {D : Type} [LinearOrder D] (distance : Cluster → Option D)
    (kept : Option Cluster × D) (pCluster : Cluster) : Option Cluster × D :=
  match distance pCluster with
  | some d => if d < kept.2 then (some pCluster, d) else kept
  | none => kept

/-- The cluster and distance kept, with the distance as a value of type `float`. -/
def keptAsFloat {R : Type} (kept : Option Cluster × R) : Option Cluster × FloatValue R :=
  (kept.1, FloatValue.number kept.2)

/-- The status of `AddTrackClusterAssociation` in the examples: every call succeeds. -/
def exampleAddAssociation (_calls : List (Track × Cluster)) (_pTrack : Track)
    (_pCluster : Cluster) : StatusCode :=
  StatusCode.SUCCESS

end TrackClusterAssociationAlgorithm

/-! ## Theorems -/

namespace ClusterManager

/-- The C++ test `empty()` on a string is the comparison with the empty string. -/
theorem isEmpty_eq_true_iff (s : String) : s.isEmpty = true ↔ s = "" :=
  String.isEmpty_iff s

/-- C1: `DropCurrentList`, called in any manager state, returns `STATUS_CODE_SUCCESS` and leaves
the current list name equal to `NULL_LIST_NAME` and the make-new-clusters flag false; calling
it twice gives the same status and state as calling it once. -/
theorem DropCurrentList_spec (NULL_LIST_NAME : String) (m : ClusterManager) :
    (DropCurrentList NULL_LIST_NAME m).1 = StatusCode.SUCCESS ∧
    (DropCurrentList NULL_LIST_NAME m).2.m_currentListName = NULL_LIST_NAME ∧
    (DropCurrentList NULL_LIST_NAME m).2.m_canMakeNewClusters = false ∧
    DropCurrentList NULL_LIST_NAME (DropCurrentList NULL_LIST_NAME m).2 =
      DropCurrentList NULL_LIST_NAME m :=
  ⟨rfl, rfl, rfl, rfl⟩

/-- The getter `GetCurrentListName`, run with `m_currentListName` as its output reference,
stores back the name that was there. -/
theorem GetCurrentListName_self (m : ClusterManager) :
    (m.GetCurrentListName m.m_currentListName).2 = m.m_currentListName := by
  unfold GetCurrentListName
  split <;> rfl

/-- A call of `ResetCurrentListToAlgorithmInputList` never writes the creation flag. -/
theorem ResetCurrentListToAlgorithmInputList_flag (m : ClusterManager) (pAlgorithm : Algorithm) :
    (m.ResetCurrentListToAlgorithmInputList pAlgorithm).2.m_canMakeNewClusters =
      m.m_canMakeNewClusters := rfl

/-- The creation flag after one call is false when it was false before. -/
theorem exec_flag_false {P : Type} (NULL_LIST_NAME : String)
    (GetList : ClusterManager → String → P → StatusCode × P) (m : ClusterManager) (op : Op P)
    (h : m.m_canMakeNewClusters = false) :
    (exec NULL_LIST_NAME GetList m op).2.m_canMakeNewClusters = false := by
  cases op <;> first | rfl | exact h

/-- The creation flag after a sequence of calls is false when it was false before. -/
theorem run_flag_false {P : Type} (NULL_LIST_NAME : String)
    (GetList : ClusterManager → String → P → StatusCode × P) (ops : List (Op P)) :
    ∀ m : ClusterManager, m.m_canMakeNewClusters = false →
      (run NULL_LIST_NAME GetList m ops).m_canMakeNewClusters = false := by
  induction ops with
  | nil => intro m h; exact h
  | cons op rest ih =>
    intro m h
    exact ih _ (exec_flag_false NULL_LIST_NAME GetList m op h)

/-- C2 (as stated, refuted): in `staleInputManager` the current list name is a key of the map
and the null list is registered, yet after `ResetCurrentListToAlgorithmInputList` for
algorithm 7 the current list name is not a key of the map. -/
theorem current_list_registered_counterexample :
    staleInputManager.hasList staleInputManager.m_currentListName ∧
    staleInputManager.hasList "NullList" ∧
    (staleInputManager.ResetCurrentListToAlgorithmInputList 7).1 = StatusCode.SUCCESS ∧
    (staleInputManager.ResetCurrentListToAlgorithmInputList 7).2.m_currentListName = "Removed" ∧
    ¬ (staleInputManager.ResetCurrentListToAlgorithmInputList 7).2.hasList
        (staleInputManager.ResetCurrentListToAlgorithmInputList 7).2.m_currentListName := by
  decide

/-- C2 (amended): for every manager state in which the current list name is a key of the
name to cluster list map and the null list is registered, and for every algorithm whose scope
record, if it has one, records an input list name that is a key of the map, the state after
`DropCurrentList` and the state after `ResetCurrentListToAlgorithmInputList` again have a
current list name that is a key of the map. -/
theorem current_list_registered_preserved (NULL_LIST_NAME : String) (m : ClusterManager)
    (pAlgorithm : Algorithm)
    (hcur : m.hasList m.m_currentListName)
    (hnull : m.hasList NULL_LIST_NAME)
    (hinput : ∀ info, m.m_algorithmInfoMap.lookup pAlgorithm = some info →
      m.hasList info.m_parentListName) :
    (m.DropCurrentList NULL_LIST_NAME).2.hasList
        (m.DropCurrentList NULL_LIST_NAME).2.m_currentListName ∧
    (m.ResetCurrentListToAlgorithmInputList pAlgorithm).2.hasList
        (m.ResetCurrentListToAlgorithmInputList pAlgorithm).2.m_currentListName := by
  refine ⟨hnull, ?_⟩
  show (m.GetAlgorithmInputListName pAlgorithm m.m_currentListName).2 ∈
    m.m_nameToClusterListMap.map Prod.fst
  unfold GetAlgorithmInputListName
  cases hlook : m.m_algorithmInfoMap.lookup pAlgorithm with
  | none =>
    show (m.GetCurrentListName m.m_currentListName).2 ∈ _
    rw [GetCurrentListName_self]
    exact hcur
  | some info => exact hinput info hlook

/-- C2 (amended), at a concrete state: algorithm 8 of `temporaryListManager` records the
registered list "Tmp". -/
theorem current_list_registered_preserved_witness :
    (temporaryListManager.DropCurrentList "NullList").2.hasList
        (temporaryListManager.DropCurrentList "NullList").2.m_currentListName ∧
    (temporaryListManager.ResetCurrentListToAlgorithmInputList 8).2.hasList
        (temporaryListManager.ResetCurrentListToAlgorithmInputList 8).2.m_currentListName :=
  current_list_registered_preserved "NullList" temporaryListManager 8 (by decide) (by decide)
    (by decide)

/-- C3 (the code at the failing input): `temporaryListManager` satisfies the creation gate,
and `ResetCurrentListToAlgorithmInputList` for algorithm 7 succeeds and leaves the null list
current with the make-new-clusters flag still true, so the gate no longer holds. -/
theorem ResetCurrentListToAlgorithmInputList_leaves_flag_on_null_list :
    creationGated "NullList" temporaryListManager ∧
    (temporaryListManager.ResetCurrentListToAlgorithmInputList 7).1 = StatusCode.SUCCESS ∧
    (temporaryListManager.ResetCurrentListToAlgorithmInputList 7).2.m_currentListName =
      "NullList" ∧
    (temporaryListManager.ResetCurrentListToAlgorithmInputList 7).2.m_canMakeNewClusters = true ∧
    ¬ creationGated "NullList" (temporaryListManager.ResetCurrentListToAlgorithmInputList 7).2 := by
  decide

/-- C4: `GetCurrentListName` returns `STATUS_CODE_NOT_INITIALIZED` exactly when the current
list name is the empty string, and then the output string keeps its old value; in every other
state it returns `STATUS_CODE_SUCCESS` with the output equal to the current list name. As a
const member function it leaves the manager state as it was. -/
theorem GetCurrentListName_spec {P : Type} (NULL_LIST_NAME : String)
    (GetList : ClusterManager → String → P → StatusCode × P)
    (m : ClusterManager) (clusterListName : String) :
    ((m.GetCurrentListName clusterListName).1 = StatusCode.NOT_INITIALIZED ↔
      m.m_currentListName = "") ∧
    m.GetCurrentListName clusterListName =
      (if m.m_currentListName = "" then (StatusCode.NOT_INITIALIZED, clusterListName)
       else (StatusCode.SUCCESS, m.m_currentListName)) ∧
    (exec NULL_LIST_NAME GetList m (Op.GetCurrentListName clusterListName)).2 = m := by
  unfold GetCurrentListName
  by_cases h : m.m_currentListName = ""
  · have he : "".isEmpty = true := (isEmpty_eq_true_iff _).2 rfl
    simp [he, h, exec]
  · have he : ¬ m.m_currentListName.isEmpty = true := fun hc => h ((isEmpty_eq_true_iff _).1 hc)
    simp [he, h, exec]

/-- C5: for every algorithm that has a scope record `GetAlgorithmInputListName` returns
`STATUS_CODE_SUCCESS` with the recorded `m_parentListName`, whatever the current list name is
at the time of the call; for every algorithm without a scope record its status and output
are those of `GetCurrentListName`. -/
theorem GetAlgorithmInputListName_spec (m : ClusterManager) (pAlgorithm : Algorithm)
    (clusterListName : String) :
    (∀ info, m.m_algorithmInfoMap.lookup pAlgorithm = some info →
      ∀ currentListName : String,
        ({ m with m_currentListName := currentListName }).GetAlgorithmInputListName pAlgorithm
            clusterListName = (StatusCode.SUCCESS, info.m_parentListName)) ∧
    (m.m_algorithmInfoMap.lookup pAlgorithm = none →
      m.GetAlgorithmInputListName pAlgorithm clusterListName =
        m.GetCurrentListName clusterListName) := by
  constructor
  · intro info hlook currentListName
    simp only [GetAlgorithmInputListName, hlook]
  · intro hlook
    simp only [GetAlgorithmInputListName, hlook]

/-- C5, at concrete states: algorithm 7 of `temporaryListManager` has a scope record with
input list "NullList"; algorithm 9 has none. -/
theorem GetAlgorithmInputListName_spec_witness :
    ({ temporaryListManager with m_currentListName := "Other" }).GetAlgorithmInputListName 7
        "old" = (StatusCode.SUCCESS, "NullList") ∧
    temporaryListManager.GetAlgorithmInputListName 9 "old" =
      temporaryListManager.GetCurrentListName "old" :=
  ⟨(GetAlgorithmInputListName_spec temporaryListManager 7 "old").1
      { m_parentListName := "NullList", m_temporaryListNames := ["Tmp"],
        m_numberOfListsCreated := 1 } (by decide) "Other",
   (GetAlgorithmInputListName_spec temporaryListManager 9 "old").2 (by decide)⟩

/-- C6: for every algorithm that has a scope record, `ResetCurrentListToAlgorithmInputList`
returns `STATUS_CODE_SUCCESS` and afterwards the current list name is that algorithm's
recorded input list name, whatever the current list name was before. -/
theorem ResetCurrentListToAlgorithmInputList_spec (m : ClusterManager) (pAlgorithm : Algorithm)
    (info : AlgorithmInfo) (h : m.m_algorithmInfoMap.lookup pAlgorithm = some info)
    (currentListName : String) :
    (({ m with m_currentListName := currentListName }).ResetCurrentListToAlgorithmInputList
        pAlgorithm).1 = StatusCode.SUCCESS ∧
    (({ m with m_currentListName := currentListName }).ResetCurrentListToAlgorithmInputList
        pAlgorithm).2.m_currentListName = info.m_parentListName := by
  simp only [ResetCurrentListToAlgorithmInputList, GetAlgorithmInputListName, h, and_self]

/-- C6, at a concrete state: algorithm 8 of `temporaryListManager` records the input list
"Tmp", and the reset starts from the current list name "Elsewhere". -/
theorem ResetCurrentListToAlgorithmInputList_spec_witness :
    (({ temporaryListManager with m_currentListName := "Elsewhere" }
        ).ResetCurrentListToAlgorithmInputList 8).1 = StatusCode.SUCCESS ∧
    (({ temporaryListManager with m_currentListName := "Elsewhere" }
        ).ResetCurrentListToAlgorithmInputList 8).2.m_currentListName = "Tmp" :=
  ResetCurrentListToAlgorithmInputList_spec temporaryListManager 8
    { m_parentListName := "Tmp", m_temporaryListNames := [], m_numberOfListsCreated := 0 }
    (by decide) "Elsewhere"

/-- C7: for every state and every algorithm, if `ResetCurrentListToAlgorithmInputList` returns
a status other than `STATUS_CODE_SUCCESS`, the manager (current list name, creation flag, name
to cluster list map, algorithm info map and saved-list set) is as it was before the call. -/
theorem ResetCurrentListToAlgorithmInputList_failure_unchanged (m : ClusterManager)
    (pAlgorithm : Algorithm)
    (h : (m.ResetCurrentListToAlgorithmInputList pAlgorithm).1 ≠ StatusCode.SUCCESS) :
    (m.ResetCurrentListToAlgorithmInputList pAlgorithm).2 = m ∧
    (m.ResetCurrentListToAlgorithmInputList pAlgorithm).2.m_currentListName =
      m.m_currentListName ∧
    (m.ResetCurrentListToAlgorithmInputList pAlgorithm).2.m_canMakeNewClusters =
      m.m_canMakeNewClusters ∧
    (m.ResetCurrentListToAlgorithmInputList pAlgorithm).2.m_nameToClusterListMap =
      m.m_nameToClusterListMap ∧
    (m.ResetCurrentListToAlgorithmInputList pAlgorithm).2.m_algorithmInfoMap =
      m.m_algorithmInfoMap ∧
    (m.ResetCurrentListToAlgorithmInputList pAlgorithm).2.m_savedLists = m.m_savedLists := by
  have key : (m.ResetCurrentListToAlgorithmInputList pAlgorithm).2 = m := by
    unfold ResetCurrentListToAlgorithmInputList GetAlgorithmInputListName at h ⊢
    cases hlook : m.m_algorithmInfoMap.lookup pAlgorithm with
    | none =>
      show { m with m_currentListName := (m.GetCurrentListName m.m_currentListName).2 } = m
      rw [GetCurrentListName_self]
    | some info =>
      rw [hlook] at h
      exact absurd rfl h
  rw [key]
  exact ⟨rfl, rfl, rfl, rfl, rfl, rfl⟩

/-- C7, at a concrete state: in `unsetManager` the reset for algorithm 3 fails. -/
theorem ResetCurrentListToAlgorithmInputList_failure_unchanged_witness :
    (unsetManager.ResetCurrentListToAlgorithmInputList 3).1 = StatusCode.NOT_INITIALIZED ∧
    (unsetManager.ResetCurrentListToAlgorithmInputList 3).2 = unsetManager :=
  ⟨by decide,
   (ResetCurrentListToAlgorithmInputList_failure_unchanged unsetManager 3 (by decide)).1⟩

/-- C8: `DropCurrentList` leaves the name to cluster list map (its names and the contents of
every list), the algorithm info map and the saved-list set as they were; the state after the
call is the state before it with only the current list name and the creation flag replaced. -/
theorem DropCurrentList_frame (NULL_LIST_NAME : String) (m : ClusterManager) :
    (m.DropCurrentList NULL_LIST_NAME).2.m_nameToClusterListMap = m.m_nameToClusterListMap ∧
    (m.DropCurrentList NULL_LIST_NAME).2.m_algorithmInfoMap = m.m_algorithmInfoMap ∧
    (m.DropCurrentList NULL_LIST_NAME).2.m_savedLists = m.m_savedLists ∧
    (∀ listName, (m.DropCurrentList NULL_LIST_NAME).2.m_nameToClusterListMap.lookup listName =
      m.m_nameToClusterListMap.lookup listName) ∧
    (∀ pAlgorithm, (m.DropCurrentList NULL_LIST_NAME).2.m_algorithmInfoMap.lookup pAlgorithm =
      m.m_algorithmInfoMap.lookup pAlgorithm) :=
  ⟨rfl, rfl, rfl, fun _ => rfl, fun _ => rfl⟩

/-- C9: after `DropCurrentList`, for every sequence made only of `DropCurrentList`,
`ResetCurrentListToAlgorithmInputList` (for any algorithm) and the const getters, the
make-new-clusters flag is false after every step of the sequence. -/
theorem creation_stays_disabled_after_DropCurrentList {P : Type} (NULL_LIST_NAME : String)
    (GetList : ClusterManager → String → P → StatusCode × P) (m : ClusterManager)
    (ops : List (Op P)) (k : Nat) :
    (run NULL_LIST_NAME GetList (m.DropCurrentList NULL_LIST_NAME).2
      (ops.take k)).m_canMakeNewClusters = false :=
  run_flag_false NULL_LIST_NAME GetList (ops.take k) _ rfl

/-- C10: the forms of `DeleteCluster` and `DeleteClusters` that name no list have the status
and the effect of the forms that name a list, called with the current list name, for every
manager state, cluster and cluster list and whatever the list-naming forms do. -/
theorem DeleteCluster_current_list_forms
    (DeleteClusterInList : ClusterManager → Cluster → String → StatusCode × ClusterManager)
    (DeleteClustersInList : ClusterManager → ClusterList → String → StatusCode × ClusterManager)
    (m : ClusterManager) (pCluster : Cluster) (clusterList : ClusterList) :
    m.DeleteCluster DeleteClusterInList pCluster =
      DeleteClusterInList m pCluster m.m_currentListName ∧
    m.DeleteClusters DeleteClustersInList clusterList =
      DeleteClustersInList m clusterList m.m_currentListName :=
  ⟨rfl, rfl⟩

/-- C12: for every manager state, algorithm, original list name and old output name, a call
of `MoveClustersToTemporaryListAndSetCurrent` with an empty selection returns
`STATUS_CODE_INVALID_PARAMETER` and leaves the manager (the name to cluster list map, the
algorithm info map with every temporary set and creation counter, and the current list name)
and the output name as they were. -/
theorem MoveClustersToTemporaryListAndSetCurrent_empty_rejected
    (NewTemporaryName : Algorithm → Nat → String) (m : ClusterManager) (pAlgorithm : Algorithm)
    (originalListName temporaryListName : String) :
    m.MoveClustersToTemporaryListAndSetCurrent NewTemporaryName pAlgorithm originalListName
        temporaryListName [] = (StatusCode.INVALID_PARAMETER, m, temporaryListName) ∧
    (m.MoveClustersToTemporaryListAndSetCurrent NewTemporaryName pAlgorithm originalListName
        temporaryListName []).2.1.m_nameToClusterListMap = m.m_nameToClusterListMap ∧
    (m.MoveClustersToTemporaryListAndSetCurrent NewTemporaryName pAlgorithm originalListName
        temporaryListName []).2.1.m_algorithmInfoMap = m.m_algorithmInfoMap ∧
    (m.MoveClustersToTemporaryListAndSetCurrent NewTemporaryName pAlgorithm originalListName
        temporaryListName []).2.1.m_currentListName = m.m_currentListName :=
  ⟨rfl, rfl, rfl, rfl⟩

end ClusterManager

namespace PandoraType

variable {T : Type}

/-- The flag after a call is what the call writes, or the flag before when it writes
nothing. -/
theorem apply_flag (p : PandoraType T) (x : Call T) :
    (Call.apply p x).m_isInitialized = x.writes.getD p.m_isInitialized := by
  cases x <;> rfl

/-- The flag after a sequence of calls is false exactly when the flag was false before and no
call wrote the object, or some call that leaves the object without a value is followed by no
call that writes it. -/
theorem foldl_apply_flag (calls : List (Call T)) :
    ∀ p : PandoraType T,
      (calls.foldl Call.apply p).m_isInitialized = false ↔
        ((p.m_isInitialized = false ∧ ∀ x ∈ calls, x.writes = none) ∨
         (∃ (before after : List (Call T)) (x : Call T),
           calls = before ++ x :: after ∧ x.writes = some false ∧
             ∀ y ∈ after, y.writes = none)) := by
  induction calls with
  | nil =>
    intro p
    simp
  | cons x xs ih =>
    intro p
    rw [List.foldl_cons, ih]
    constructor
    · rintro (⟨hflag, hxs⟩ | ⟨before, after, y, hsplit, hy, hafter⟩)
      · rw [apply_flag] at hflag
        cases he : x.writes with
        | none =>
          rw [he] at hflag
          refine Or.inl ⟨hflag, ?_⟩
          intro y hy
          rcases List.mem_cons.1 hy with rfl | hy
          · exact he
          · exact hxs y hy
        | some b =>
          rw [he] at hflag
          have hb : b = false := hflag
          subst hb
          exact Or.inr ⟨[], xs, x, rfl, he, hxs⟩
      · exact Or.inr ⟨x :: before, after, y, by rw [hsplit]; rfl, hy, hafter⟩
    · rintro (⟨hflag, hall⟩ | ⟨before, after, y, hsplit, hy, hafter⟩)
      · have hx : x.writes = none := hall x (List.mem_cons_self _ _)
        have hxs : ∀ y ∈ xs, y.writes = none :=
          fun y hy => hall y (List.mem_cons_of_mem _ hy)
        refine Or.inl ⟨?_, hxs⟩
        rw [apply_flag, hx]
        exact hflag
      · cases before with
        | nil =>
          simp only [List.nil_append, List.cons.injEq] at hsplit
          obtain ⟨hx, hxs⟩ := hsplit
          subst hx
          subst hxs
          refine Or.inl ⟨?_, hafter⟩
          rw [apply_flag, hy]
          rfl
        | cons b bs =>
          simp only [List.cons_append, List.cons.injEq] at hsplit
          exact Or.inr ⟨bs, after, y, hsplit.2, hy, hafter⟩

/-- The flag of the object after a history is false exactly when the last write of the
history leaves the object without a value. -/
theorem objectAfter_flag (c : Construction T) (calls : List (Call T)) :
    (objectAfter c calls).m_isInitialized = false ↔ LastWriteUninitialised c calls := by
  unfold objectAfter LastWriteUninitialised
  rw [foldl_apply_flag]
  cases c <;>
    simp [Construction.object, Construction.initialises, construct, constructFrom, copyFrom,
      IsInitialized]

/-- C14 (as stated, refuted): an object constructed from the value 1 and then assigned a
default constructed object (`a(1); b; a = b`) was never default constructed or `Reset`, so it
is not uninitialised in the sense of the claim, and yet `Get` throws
`StatusCodeException(STATUS_CODE_NOT_INITIALIZED)` and `IsInitialized` is false: the copy
assignment generated by the compiler copies `m_isInitialized`. -/
theorem Get_throws_counterexample :
    (objectAfter (Construction.value 1) [Call.copyAssign (construct 0)]).Get =
      (Except.error StatusCode.NOT_INITIALIZED : Except StatusCode Nat) ∧
    (objectAfter (Construction.value 1)
      [Call.copyAssign (construct 0)]).IsInitialized = false ∧
    ¬ Uninitialised (Construction.value 1) [Call.copyAssign (construct 0)] := by
  refine ⟨rfl, rfl, ?_⟩
  rintro (⟨h, _⟩ | ⟨before, after, hsplit, _⟩)
  · simp [Construction.isDefault] at h
  · cases before with
    | nil => simp at hsplit
    | cons b bs => simp at hsplit

/-- C14 (amended): after any construction (default, from a value, or the copy of another
object) and any sequence of calls (`Set`, `Reset`, the assignment of a value, the copy
assignment of another object, `Get`, `IsInitialized`), `Get` throws
`StatusCodeException(STATUS_CODE_NOT_INITIALIZED)` exactly when the last write of the object
was a default construction, a `Reset` or the copy of an object that holds no value; otherwise
it returns a value; and `IsInitialized` is false in exactly the same case. -/
theorem Get_throws_iff_uninitialised (c : Construction T) (calls : List (Call T)) :
    ((objectAfter c calls).Get = Except.error StatusCode.NOT_INITIALIZED ↔
      LastWriteUninitialised c calls) ∧
    ((∃ t, (objectAfter c calls).Get = Except.ok t) ↔ ¬ LastWriteUninitialised c calls) ∧
    ((objectAfter c calls).IsInitialized = false ↔ LastWriteUninitialised c calls) := by
  rw [← objectAfter_flag]
  unfold Get IsInitialized
  cases h : (objectAfter c calls).m_isInitialized <;> simp

/-- C15: for every value `t` and every prior state of the object, `Get` returns `t` after
`Set(t)`, after the assignment of `t` (which returns true) and after the construction from
`t`; this holds after `Reset` as well, and of two writes the last one wins. -/
theorem Set_Get_round_trip (p : PandoraType T) (t t' : T) :
    (p.Set t).Get = Except.ok t ∧
    (p.assign t).1 = true ∧
    (p.assign t).2.Get = Except.ok t ∧
    (constructFrom t).Get = Except.ok t ∧
    (p.Reset.Set t).Get = Except.ok t ∧
    ((p.Reset).assign t).2.Get = Except.ok t ∧
    ((p.Set t').Set t).Get = Except.ok t ∧
    (((p.assign t').2).assign t).2.Get = Except.ok t ∧
    (((p.Set t').assign t).2).Get = Except.ok t ∧
    (((p.assign t').2).Set t).Get = Except.ok t ∧
    ((constructFrom t').Set t).Get = Except.ok t :=
  ⟨rfl, rfl, rfl, rfl, rfl, rfl, rfl, rfl, rfl, rfl, rfl⟩

end PandoraType

namespace MCParticle

/-- C16: for every non-null particle `p`, `SetPfoTarget(p)` returns `STATUS_CODE_SUCCESS` and
afterwards `IsPfoTargetSet` is true and `GetPfoTarget` returns `STATUS_CODE_SUCCESS` with `p`;
`SetPfoTarget(NULL)` returns `STATUS_CODE_FAILURE` and leaves the particle as it was;
`GetPfoTarget` returns `STATUS_CODE_NOT_INITIALIZED` exactly when `IsPfoTargetSet` is false,
and then the output keeps its old value. -/
theorem pfo_target_spec (m : MCParticle) (p pMCParticle : MCParticleAddress) :
    (p ≠ NULL →
      (m.SetPfoTarget p).1 = StatusCode.SUCCESS ∧
      (m.SetPfoTarget p).2.IsPfoTargetSet = true ∧
      (m.SetPfoTarget p).2.GetPfoTarget pMCParticle = (StatusCode.SUCCESS, p)) ∧
    m.SetPfoTarget NULL = (StatusCode.FAILURE, m) ∧
    ((m.GetPfoTarget pMCParticle).1 = StatusCode.NOT_INITIALIZED ↔ m.IsPfoTargetSet = false) ∧
    (m.GetPfoTarget pMCParticle =
      if m.IsPfoTargetSet = false then (StatusCode.NOT_INITIALIZED, pMCParticle)
      else (StatusCode.SUCCESS, m.m_pPfoTarget)) := by
  refine ⟨?_, ?_, ?_, ?_⟩
  · intro hp
    have hp' : ¬ NULL = p := fun h => hp h.symm
    simp [SetPfoTarget, hp', IsPfoTargetSet, GetPfoTarget]
  · simp [SetPfoTarget]
  · unfold GetPfoTarget IsPfoTargetSet
    by_cases h : NULL = m.m_pPfoTarget <;> simp [h]
  · unfold GetPfoTarget IsPfoTargetSet
    by_cases h : NULL = m.m_pPfoTarget <;> simp [h]

/-- C16, at a concrete particle: the target of `exampleParticle`, which has none, is set to
the address 6. -/
theorem pfo_target_spec_witness :
    ((exampleParticle.SetPfoTarget 6).1 = StatusCode.SUCCESS ∧
      (exampleParticle.SetPfoTarget 6).2.IsPfoTargetSet = true ∧
      (exampleParticle.SetPfoTarget 6).2.GetPfoTarget 3 = (StatusCode.SUCCESS, 6)) ∧
    exampleParticle.GetPfoTarget 3 = (StatusCode.NOT_INITIALIZED, 3) :=
  ⟨(pfo_target_spec exampleParticle 6 3).1 (by decide), by decide⟩

/-- C17: `IsRootParticle` is true exactly when the particle has no parents. `AddParent`
succeeds exactly when the particle given is not yet a parent, so it always succeeds on a root
particle, and after every `AddParent`, successful or not, the particle is not a root.
`RemoveParent` succeeds exactly when the particle given is a parent; after a successful
`RemoveParent` the particle is a root exactly when the particle removed was the only parent,
and a `RemoveParent` that fails changes nothing. So adding a parent to a root particle makes
it a non-root, and removing that parent makes it a root again. `AddDaughter`,
`RemoveDaughter` and `SetPfoTarget` never change `IsRootParticle`. -/
theorem IsRootParticle_spec (m : MCParticle) (p : MCParticleAddress) :
    (m.IsRootParticle = true ↔ ∀ q, q ∉ m.m_parentList) ∧
    ((m.AddParent p).1 = StatusCode.SUCCESS → (m.AddParent p).2.IsRootParticle = false) ∧
    ((m.RemoveParent p).1 = StatusCode.SUCCESS →
      ((m.RemoveParent p).2.IsRootParticle = true ↔ m.m_parentList = {p})) ∧
    (m.AddDaughter p).2.IsRootParticle = m.IsRootParticle ∧
    (m.RemoveDaughter p).2.IsRootParticle = m.IsRootParticle ∧
    (m.SetPfoTarget p).2.IsRootParticle = m.IsRootParticle ∧
    ((m.AddParent p).1 = StatusCode.SUCCESS ↔ p ∉ m.m_parentList) ∧
    (m.AddParent p).2.m_parentList = insert p m.m_parentList ∧
    (m.AddParent p).2.IsRootParticle = false ∧
    ((m.RemoveParent p).1 = StatusCode.SUCCESS ↔ p ∈ m.m_parentList) ∧
    ((m.RemoveParent p).1 ≠ StatusCode.SUCCESS → (m.RemoveParent p).2 = m) ∧
    (m.IsRootParticle = true →
      (m.AddParent p).1 = StatusCode.SUCCESS ∧
      (m.AddParent p).2.IsRootParticle = false ∧
      ((m.AddParent p).2.RemoveParent p).1 = StatusCode.SUCCESS ∧
      ((m.AddParent p).2.RemoveParent p).2.IsRootParticle = true ∧
      ((m.AddParent p).2.RemoveParent p).2 = m) := by
  have hadd : (m.AddParent p).2.m_parentList = insert p m.m_parentList := by
    unfold AddParent setInsert
    by_cases h : p ∈ m.m_parentList <;> simp [h]
  have hstatus : (m.AddParent p).1 = StatusCode.SUCCESS ↔ p ∉ m.m_parentList := by
    unfold AddParent setInsert
    by_cases h : p ∈ m.m_parentList <;> simp [h]
  have hnonroot : (m.AddParent p).2.IsRootParticle = false := by
    unfold IsRootParticle
    rw [hadd]
    simp
  refine ⟨?_, fun _ => hnonroot, ?_, ?_, ?_, ?_, hstatus, hadd, hnonroot, ?_, ?_, ?_⟩
  · simp [IsRootParticle, Finset.eq_empty_iff_forall_not_mem]
  · unfold RemoveParent IsRootParticle
    by_cases h : p ∈ m.m_parentList
    · intro _
      simp only [h, not_true_eq_false, if_false, decide_eq_true_eq]
      rw [Finset.erase_eq_empty_iff]
      constructor
      · rintro (h0 | h1)
        · rw [h0] at h
          exact absurd h (Finset.not_mem_empty p)
        · exact h1
      · exact Or.inr
    · intro hs
      simp [h] at hs
  · unfold AddDaughter setInsert IsRootParticle
    by_cases h : p ∈ m.m_daughterList <;> simp [h]
  · unfold RemoveDaughter IsRootParticle
    by_cases h : p ∈ m.m_daughterList <;> simp [h]
  · unfold SetPfoTarget IsRootParticle
    by_cases h : NULL = p <;> simp [h]
  · unfold RemoveParent
    by_cases h : p ∈ m.m_parentList <;> simp [h]
  · unfold RemoveParent
    by_cases h : p ∈ m.m_parentList <;> simp [h]
  · intro hroot
    have hempty : m.m_parentList = ∅ := by
      simpa [IsRootParticle] using hroot
    have hp : p ∉ m.m_parentList := by
      rw [hempty]
      exact Finset.not_mem_empty p
    have hremove : (m.AddParent p).2.RemoveParent p = (StatusCode.SUCCESS, m) := by
      unfold RemoveParent
      rw [hadd]
      simp only [Finset.mem_insert, true_or, not_true_eq_false, if_false,
        Finset.erase_insert hp]
      unfold AddParent setInsert
      simp [hp]
    refine ⟨hstatus.2 hp, hnonroot, ?_, ?_, ?_⟩
    · rw [hremove]
    · rw [hremove]
      exact hroot
    · rw [hremove]

/-- C17, at concrete particles: `rootParticle` has no parent and is a root; adding the parent
9 succeeds and the particle is then not a root; removing the parent 9 again succeeds and the
particle is a root again. 9 is the only parent of `exampleParticle`: adding the parent 8
succeeds and the particle is still not a root, removing the parent 9 makes it a root. -/
theorem IsRootParticle_spec_witness :
    (rootParticle.IsRootParticle = true ∧
      (rootParticle.AddParent 9).1 = StatusCode.SUCCESS ∧
      (rootParticle.AddParent 9).2.IsRootParticle = false ∧
      ((rootParticle.AddParent 9).2.RemoveParent 9).1 = StatusCode.SUCCESS ∧
      ((rootParticle.AddParent 9).2.RemoveParent 9).2.IsRootParticle = true ∧
      ((rootParticle.AddParent 9).2.RemoveParent 9).2 = rootParticle) ∧
    (exampleParticle.AddParent 8).2.IsRootParticle = false ∧
    ((exampleParticle.RemoveParent 9).2.IsRootParticle = true ↔
      exampleParticle.m_parentList = {9}) ∧
    (exampleParticle.RemoveParent 9).2.IsRootParticle = true :=
  ⟨⟨by decide, (IsRootParticle_spec rootParticle 9).2.2.2.2.2.2.2.2.2.2.2 (by decide)⟩,
   (IsRootParticle_spec exampleParticle 8).2.1 (by decide),
   (IsRootParticle_spec exampleParticle 9).2.2.1 (by decide),
   by decide⟩

/-- C18: `AddDaughter` and `AddParent` return `STATUS_CODE_ALREADY_PRESENT` exactly when the
particle is already in the respective list, which is then unchanged, and otherwise return
`STATUS_CODE_SUCCESS` with the list equal to the old list plus that one particle; the other
list and the pfo target are never changed. -/
theorem AddDaughter_AddParent_spec (m : MCParticle) (p : MCParticleAddress) :
    (m.AddDaughter p =
      if p ∈ m.m_daughterList then (StatusCode.ALREADY_PRESENT, m)
      else (StatusCode.SUCCESS, { m with m_daughterList := insert p m.m_daughterList })) ∧
    ((m.AddDaughter p).1 = StatusCode.ALREADY_PRESENT ↔ p ∈ m.m_daughterList) ∧
    (∀ q, q ∈ (m.AddDaughter p).2.m_daughterList ↔ (q = p ∨ q ∈ m.m_daughterList)) ∧
    (m.AddDaughter p).2.m_parentList = m.m_parentList ∧
    (m.AddDaughter p).2.m_pPfoTarget = m.m_pPfoTarget ∧
    (m.AddParent p =
      if p ∈ m.m_parentList then (StatusCode.ALREADY_PRESENT, m)
      else (StatusCode.SUCCESS, { m with m_parentList := insert p m.m_parentList })) ∧
    ((m.AddParent p).1 = StatusCode.ALREADY_PRESENT ↔ p ∈ m.m_parentList) ∧
    (∀ q, q ∈ (m.AddParent p).2.m_parentList ↔ (q = p ∨ q ∈ m.m_parentList)) ∧
    (m.AddParent p).2.m_daughterList = m.m_daughterList ∧
    (m.AddParent p).2.m_pPfoTarget = m.m_pPfoTarget := by
  refine ⟨?_, ?_, ?_, ?_, ?_, ?_, ?_, ?_, ?_, ?_⟩
  · unfold AddDaughter setInsert
    by_cases h : p ∈ m.m_daughterList <;> simp [h]
  · unfold AddDaughter setInsert
    by_cases h : p ∈ m.m_daughterList <;> simp [h]
  · intro q
    unfold AddDaughter setInsert
    by_cases h : p ∈ m.m_daughterList
    · simp only [h, not_true_eq_false, decide_False, Bool.not_false, if_true,
        Finset.mem_insert]
    · simp [h]
  · unfold AddDaughter setInsert
    by_cases h : p ∈ m.m_daughterList <;> simp [h]
  · unfold AddDaughter setInsert
    by_cases h : p ∈ m.m_daughterList <;> simp [h]
  · unfold AddParent setInsert
    by_cases h : p ∈ m.m_parentList <;> simp [h]
  · unfold AddParent setInsert
    by_cases h : p ∈ m.m_parentList <;> simp [h]
  · intro q
    unfold AddParent setInsert
    by_cases h : p ∈ m.m_parentList
    · simp only [h, not_true_eq_false, decide_False, Bool.not_false, if_true,
        Finset.mem_insert]
    · simp [h]
  · unfold AddParent setInsert
    by_cases h : p ∈ m.m_parentList <;> simp [h]
  · unfold AddParent setInsert
    by_cases h : p ∈ m.m_parentList <;> simp [h]

/-- C19: `RemoveDaughter` and `RemoveParent` return `STATUS_CODE_NOT_FOUND` exactly when the
particle is absent from the respective list, which is then unchanged, and otherwise return
`STATUS_CODE_SUCCESS` having removed that particle and no other; for a particle not yet in
the list, a successful `AddDaughter` (`AddParent`) followed by `RemoveDaughter`
(`RemoveParent`) of the same particle gives back the original particle state. -/
theorem RemoveDaughter_RemoveParent_spec (m : MCParticle) (p : MCParticleAddress) :
    (m.RemoveDaughter p =
      if p ∈ m.m_daughterList then
        (StatusCode.SUCCESS, { m with m_daughterList := m.m_daughterList.erase p })
      else (StatusCode.NOT_FOUND, m)) ∧
    ((m.RemoveDaughter p).1 = StatusCode.NOT_FOUND ↔ p ∉ m.m_daughterList) ∧
    (∀ q, q ∈ (m.RemoveDaughter p).2.m_daughterList ↔ (q ≠ p ∧ q ∈ m.m_daughterList)) ∧
    (m.RemoveParent p =
      if p ∈ m.m_parentList then
        (StatusCode.SUCCESS, { m with m_parentList := m.m_parentList.erase p })
      else (StatusCode.NOT_FOUND, m)) ∧
    ((m.RemoveParent p).1 = StatusCode.NOT_FOUND ↔ p ∉ m.m_parentList) ∧
    (∀ q, q ∈ (m.RemoveParent p).2.m_parentList ↔ (q ≠ p ∧ q ∈ m.m_parentList)) ∧
    (p ∉ m.m_daughterList →
      (m.AddDaughter p).1 = StatusCode.SUCCESS ∧
      (m.AddDaughter p).2.RemoveDaughter p = (StatusCode.SUCCESS, m)) ∧
    (p ∉ m.m_parentList →
      (m.AddParent p).1 = StatusCode.SUCCESS ∧
      (m.AddParent p).2.RemoveParent p = (StatusCode.SUCCESS, m)) := by
  refine ⟨?_, ?_, ?_, ?_, ?_, ?_, ?_, ?_⟩
  · unfold RemoveDaughter
    by_cases h : p ∈ m.m_daughterList <;> simp [h]
  · unfold RemoveDaughter
    by_cases h : p ∈ m.m_daughterList <;> simp [h]
  · intro q
    unfold RemoveDaughter
    by_cases h : p ∈ m.m_daughterList
    · simp [h]
    · simp only [h, not_false_eq_true, if_true]
      constructor
      · intro hq
        exact ⟨fun hqp => h (hqp ▸ hq), hq⟩
      · exact fun hq => hq.2
  · unfold RemoveParent
    by_cases h : p ∈ m.m_parentList <;> simp [h]
  · unfold RemoveParent
    by_cases h : p ∈ m.m_parentList <;> simp [h]
  · intro q
    unfold RemoveParent
    by_cases h : p ∈ m.m_parentList
    · simp [h]
    · simp only [h, not_false_eq_true, if_true]
      constructor
      · intro hq
        exact ⟨fun hqp => h (hqp ▸ hq), hq⟩
      · exact fun hq => hq.2
  · intro h
    simp [AddDaughter, setInsert, RemoveDaughter, h, Finset.erase_insert]
  · intro h
    simp [AddParent, setInsert, RemoveParent, h, Finset.erase_insert]

/-- C19, at a concrete particle: 6 is not a daughter and 8 is not a parent of
`exampleParticle`; adding and then removing each gives back `exampleParticle`. -/
theorem RemoveDaughter_RemoveParent_spec_witness :
    ((exampleParticle.AddDaughter 6).1 = StatusCode.SUCCESS ∧
      (exampleParticle.AddDaughter 6).2.RemoveDaughter 6 =
        (StatusCode.SUCCESS, exampleParticle)) ∧
    ((exampleParticle.AddParent 8).1 = StatusCode.SUCCESS ∧
      (exampleParticle.AddParent 8).2.RemoveParent 8 = (StatusCode.SUCCESS, exampleParticle)) :=
  ⟨(RemoveDaughter_RemoveParent_spec exampleParticle 6).2.2.2.2.2.2.1 (by decide),
   (RemoveDaughter_RemoveParent_spec exampleParticle 8).2.2.2.2.2.2.2 (by decide)⟩

end MCParticle

namespace FloatValue

variable {R : Type}

/-- Two numbers compare as values of type `float` as they do as numbers. -/
theorem number_lt_number [LT R] (x y : R) : (number x < number y) ↔ x < y :=
  Iff.rfl

/-- Two numbers compare as values of type `float` as they do as numbers. -/
theorem number_le_number [LE R] (x y : R) : (number x ≤ number y) ↔ x ≤ y :=
  Iff.rfl

/-- A NaN is below nothing. -/
theorem not_NaN_lt [LT R] (a : FloatValue R) : ¬ (NaN < a) :=
  fun h => h

/-- Nothing is below a NaN. -/
theorem not_lt_NaN [LT R] (a : FloatValue R) : ¬ (a < NaN) := by
  cases a <;> exact fun h => h

/-- What is below a number is a number below it. -/
theorem eq_number_of_lt [LT R] (a : FloatValue R) (y : R) (h : a < number y) :
    ∃ x, a = number x ∧ x < y := by
  cases a with
  | number x => exact ⟨x, rfl, h⟩
  | NaN => exact absurd h (not_NaN_lt _)

end FloatValue

namespace ClusterHelper

/-- The fit points of a list that starts with a layer in the range are the hits of that layer
followed by the fit points of the rest; a layer out of the range gives none. -/
theorem hitsInLayers_cons (startLayer endLayer pseudoLayer : PseudoLayer) (hits : List CaloHit)
    (rest : OrderedCaloHitList) :
    hitsInLayers startLayer endLayer ((pseudoLayer, hits) :: rest) =
      if startLayer ≤ pseudoLayer ∧ pseudoLayer ≤ endLayer then
        hits ++ hitsInLayers startLayer endLayer rest
      else hitsInLayers startLayer endLayer rest := by
  unfold hitsInLayers
  by_cases h : startLayer ≤ pseudoLayer ∧ pseudoLayer ≤ endLayer
  · rw [if_pos h, List.filter_cons, if_pos (by simpa using h)]
    rfl
  · rw [if_neg h, List.filter_cons, if_neg (by simpa using h)]

/-- On a map iterated by increasing pseudo layer, no layer after one above `endLayer` is in
the range. -/
theorem hitsInLayers_eq_nil (startLayer endLayer pseudoLayer : PseudoLayer)
    (rest : OrderedCaloHitList) (hend : endLayer < pseudoLayer)
    (hhead : ∀ b ∈ rest, pseudoLayer < b.1) :
    hitsInLayers startLayer endLayer rest = [] := by
  have hnone : rest.filter (fun e => decide (startLayer ≤ e.1 ∧ e.1 ≤ endLayer)) = [] := by
    rw [List.filter_eq_nil_iff]
    intro b hb
    have hlt : pseudoLayer < b.1 := hhead b hb
    simp only [decide_eq_true_eq, not_and, not_le]
    intro _
    exact lt_trans hend hlt
  unfold hitsInLayers
  rw [hnone]
  rfl

/-- The loop over the hits of a layer appends them all when the constructor accepts each. -/
theorem fitLayersHitLoop_ok (positionIsInitialized cellSizeIsZero : CaloHit → Bool)
    (hits : List CaloHit) :
    (∀ h ∈ hits, IsFitPoint positionIsInitialized cellSizeIsZero h = true) →
    ∀ clusterFitPointList : ClusterFitPointList,
      fitLayersHitLoop positionIsInitialized cellSizeIsZero hits clusterFitPointList =
        Except.ok (clusterFitPointList ++ hits) := by
  induction hits with
  | nil =>
    intro _ pts
    simp [fitLayersHitLoop]
  | cons hit rest ih =>
    intro hall pts
    have hhit := hall hit (List.mem_cons_self _ _)
    simp only [IsFitPoint, Bool.and_eq_true, Bool.not_eq_true'] at hhit
    have hctor : ClusterFitPoint positionIsInitialized cellSizeIsZero hit = Except.ok hit := by
      simp [ClusterFitPoint, hhit.1, hhit.2]
    unfold fitLayersHitLoop
    rw [hctor]
    simp only
    rw [ih (fun h hh => hall h (List.mem_cons_of_mem _ hh))]
    simp

/-- The loop over the hits of a layer throws when the constructor rejects one of them. -/
theorem fitLayersHitLoop_error (positionIsInitialized cellSizeIsZero : CaloHit → Bool)
    (hits : List CaloHit) :
    (∃ h ∈ hits, IsFitPoint positionIsInitialized cellSizeIsZero h = false) →
    ∀ clusterFitPointList : ClusterFitPointList,
      fitLayersHitLoop positionIsInitialized cellSizeIsZero hits clusterFitPointList =
        Except.error StatusCode.INVALID_PARAMETER := by
  induction hits with
  | nil =>
    rintro ⟨h, hh, _⟩
    exact absurd hh (List.not_mem_nil h)
  | cons hit rest ih =>
    rintro ⟨h, hh, hbad⟩ pts
    unfold fitLayersHitLoop
    by_cases hhit : IsFitPoint positionIsInitialized cellSizeIsZero hit = true
    · simp only [IsFitPoint, Bool.and_eq_true, Bool.not_eq_true'] at hhit
      have hctor : ClusterFitPoint positionIsInitialized cellSizeIsZero hit =
          Except.ok hit := by
        simp [ClusterFitPoint, hhit.1, hhit.2]
      rw [hctor]
      simp only
      rcases List.mem_cons.1 hh with rfl | hrest
      · simp [IsFitPoint, hhit.1, hhit.2] at hbad
      · exact ih ⟨h, hrest, hbad⟩ _
    · have hctor : ClusterFitPoint positionIsInitialized cellSizeIsZero hit =
          Except.error StatusCode.INVALID_PARAMETER := by
        simp only [IsFitPoint, Bool.and_eq_true, Bool.not_eq_true', not_and,
          Bool.not_eq_false] at hhit
        unfold ClusterFitPoint
        cases hp : positionIsInitialized hit
        · simp
        · simp [hhit hp]
      rw [hctor]

/-- On a map iterated by increasing pseudo layer, when the constructor accepts every hit of
the layers from `startLayer` to `endLayer`, the loop of `FitLayers` appends these hits to the
points collected before. -/
theorem fitLayersLoop_eq (positionIsInitialized cellSizeIsZero : CaloHit → Bool)
    (startLayer endLayer : PseudoLayer) (orderedCaloHitList : OrderedCaloHitList) :
    IsOrdered orderedCaloHitList →
    (∀ h ∈ hitsInLayers startLayer endLayer orderedCaloHitList,
      IsFitPoint positionIsInitialized cellSizeIsZero h = true) →
    ∀ clusterFitPointList : ClusterFitPointList,
      fitLayersLoop positionIsInitialized cellSizeIsZero startLayer endLayer
          orderedCaloHitList clusterFitPointList =
        Except.ok (clusterFitPointList ++
          hitsInLayers startLayer endLayer orderedCaloHitList) := by
  induction orderedCaloHitList with
  | nil =>
    intro _ _ pts
    simp [fitLayersLoop, hitsInLayers]
  | cons e rest ih =>
    intro hord hall pts
    obtain ⟨pseudoLayer, hits⟩ := e
    obtain ⟨hhead, hrest⟩ := List.pairwise_cons.1 hord
    rw [hitsInLayers_cons] at hall ⊢
    unfold fitLayersLoop
    by_cases hstart : startLayer > pseudoLayer
    · have hno : ¬ (startLayer ≤ pseudoLayer ∧ pseudoLayer ≤ endLayer) :=
        fun hc => absurd hc.1 (not_le.2 hstart)
      rw [if_neg hno] at hall ⊢
      rw [if_pos hstart, ih hrest hall pts]
    · rw [if_neg hstart]
      by_cases hend : endLayer < pseudoLayer
      · have hno : ¬ (startLayer ≤ pseudoLayer ∧ pseudoLayer ≤ endLayer) :=
          fun hc => absurd hc.2 (not_le.2 hend)
        rw [if_pos hend, if_neg hno,
          hitsInLayers_eq_nil startLayer endLayer pseudoLayer rest hend hhead,
          List.append_nil]
      · have hyes : startLayer ≤ pseudoLayer ∧ pseudoLayer ≤ endLayer :=
          ⟨not_lt.1 hstart, not_lt.1 hend⟩
        rw [if_pos hyes] at hall ⊢
        rw [if_neg hend, fitLayersHitLoop_ok positionIsInitialized cellSizeIsZero hits
          (fun h hh => hall h (List.mem_append_left _ hh)) pts]
        simp only
        rw [ih hrest (fun h hh => hall h (List.mem_append_right _ hh)) (pts ++ hits),
          List.append_assoc]

/-- On a map iterated by increasing pseudo layer, when the constructor rejects a hit of the
layers from `startLayer` to `endLayer`, the loop of `FitLayers` throws. -/
theorem fitLayersLoop_error (positionIsInitialized cellSizeIsZero : CaloHit → Bool)
    (startLayer endLayer : PseudoLayer) (orderedCaloHitList : OrderedCaloHitList) :
    IsOrdered orderedCaloHitList →
    (∃ h ∈ hitsInLayers startLayer endLayer orderedCaloHitList,
      IsFitPoint positionIsInitialized cellSizeIsZero h = false) →
    ∀ clusterFitPointList : ClusterFitPointList,
      fitLayersLoop positionIsInitialized cellSizeIsZero startLayer endLayer
          orderedCaloHitList clusterFitPointList =
        Except.error StatusCode.INVALID_PARAMETER := by
  induction orderedCaloHitList with
  | nil =>
    rintro _ ⟨h, hh, _⟩
    simp [hitsInLayers] at hh
  | cons e rest ih =>
    intro hord hbad pts
    obtain ⟨pseudoLayer, hits⟩ := e
    obtain ⟨hhead, hrest⟩ := List.pairwise_cons.1 hord
    rw [hitsInLayers_cons] at hbad
    unfold fitLayersLoop
    by_cases hstart : startLayer > pseudoLayer
    · have hno : ¬ (startLayer ≤ pseudoLayer ∧ pseudoLayer ≤ endLayer) :=
        fun hc => absurd hc.1 (not_le.2 hstart)
      rw [if_neg hno] at hbad
      rw [if_pos hstart, ih hrest hbad pts]
    · rw [if_neg hstart]
      by_cases hend : endLayer < pseudoLayer
      · have hno : ¬ (startLayer ≤ pseudoLayer ∧ pseudoLayer ≤ endLayer) :=
          fun hc => absurd hc.2 (not_le.2 hend)
        rw [if_neg hno,
          hitsInLayers_eq_nil startLayer endLayer pseudoLayer rest hend hhead] at hbad
        obtain ⟨h, hh, _⟩ := hbad
        exact absurd hh (List.not_mem_nil h)
      · have hyes : startLayer ≤ pseudoLayer ∧ pseudoLayer ≤ endLayer :=
          ⟨not_lt.1 hstart, not_lt.1 hend⟩
        rw [if_pos hyes] at hbad
        rw [if_neg hend]
        by_cases hlayer : ∀ h ∈ hits, IsFitPoint positionIsInitialized cellSizeIsZero h = true
        · rw [fitLayersHitLoop_ok positionIsInitialized cellSizeIsZero hits hlayer pts]
          simp only
          obtain ⟨h, hh, hb⟩ := hbad
          rcases List.mem_append.1 hh with hin | hin
          · rw [hlayer h hin] at hb
            exact absurd hb (by decide)
          · exact ih hrest ⟨h, hin, hb⟩ _
        · have hex : ∃ h ∈ hits,
              IsFitPoint positionIsInitialized cellSizeIsZero h = false := by
            by_contra hc
            apply hlayer
            intro h hh
            cases hv : IsFitPoint positionIsInitialized cellSizeIsZero h
            · exact absurd ⟨h, hh, hv⟩ hc
            · rfl
          rw [fitLayersHitLoop_error positionIsInitialized cellSizeIsZero hits hex pts]

/-- C23 (as stated, refuted): in `exampleHits` let hit 50, of layer 5, have a cell size of
zero. The range from layer 3 to layer 6 selects hit 50 alone, fewer than two hits, and the
call does not return `STATUS_CODE_INVALID_PARAMETER` from `FitPoints`: the constructor of the
fit point throws `StatusCodeException(STATUS_CODE_INVALID_PARAMETER)` and the exception
leaves `FitLayers`. The range from layer 2 to layer 5 selects the hits 20, 21 and 50, on
which `FitPoints` would succeed, and `FitLayers` throws before it calls `FitPoints`. -/
theorem FitLayers_counterexample :
    hitsInLayers 3 6 exampleHits = [50] ∧
    FitLayers examplePositionIsInitialized exampleCellSizeIsZero exampleFit exampleHits 3 6 0 =
      Except.error StatusCode.INVALID_PARAMETER ∧
    FitLayers examplePositionIsInitialized exampleCellSizeIsZero exampleFit exampleHits 3 6 0 ≠
      Except.ok (StatusCode.INVALID_PARAMETER, 0) ∧
    hitsInLayers 2 5 exampleHits = [20, 21, 50] ∧
    FitPoints exampleFit (hitsInLayers 2 5 exampleHits) 0 = Except.ok (StatusCode.SUCCESS, 3) ∧
    FitLayers examplePositionIsInitialized exampleCellSizeIsZero exampleFit exampleHits 2 5 0 =
      Except.error StatusCode.INVALID_PARAMETER := by
  refine ⟨by decide, rfl, ?_, by decide, rfl, rfl⟩
  intro h
  cases h

/-- C23 (amended): `FitLayers` returns `STATUS_CODE_INVALID_PARAMETER` whenever
`startLayer >= endLayer`; otherwise, for a cluster with at least two (and fewer than 2^32)
occupied layers, the hits selected are exactly the hits whose pseudo layer `L` satisfies
`startLayer <= L <= endLayer`; when every selected hit has an initialised position and a cell
size that is not zero, the fit points passed to `FitPoints` are exactly the selected hits,
and when these are fewer than two the call returns `STATUS_CODE_INVALID_PARAMETER` from
`FitPoints`, the fit result being left as it was; when some selected hit has no initialised
position or a cell size of zero, `FitLayers` throws
`StatusCodeException(STATUS_CODE_INVALID_PARAMETER)` and `FitPoints` is not called. -/
theorem FitLayers_spec {R : Type} (positionIsInitialized cellSizeIsZero : CaloHit → Bool)
    (fit : ClusterFitPointList → R → Except StatusCode (StatusCode × R))
    (orderedCaloHitList : OrderedCaloHitList) (startLayer endLayer : PseudoLayer)
    (clusterFitResult : R) :
    (startLayer ≥ endLayer →
      FitLayers positionIsInitialized cellSizeIsZero fit orderedCaloHitList startLayer endLayer
          clusterFitResult =
        Except.ok (StatusCode.INVALID_PARAMETER, clusterFitResult)) ∧
    (startLayer < endLayer → IsOrdered orderedCaloHitList →
      2 ≤ orderedCaloHitList.length → orderedCaloHitList.length < 4294967296 →
      (∀ h, h ∈ hitsInLayers startLayer endLayer orderedCaloHitList ↔
        ∃ L hits, (L, hits) ∈ orderedCaloHitList ∧ startLayer ≤ L ∧ L ≤ endLayer ∧ h ∈ hits) ∧
      ((∀ h ∈ hitsInLayers startLayer endLayer orderedCaloHitList,
          IsFitPoint positionIsInitialized cellSizeIsZero h = true) →
        fitLayersLoop positionIsInitialized cellSizeIsZero startLayer endLayer
            orderedCaloHitList [] =
          Except.ok (hitsInLayers startLayer endLayer orderedCaloHitList) ∧
        FitLayers positionIsInitialized cellSizeIsZero fit orderedCaloHitList startLayer
            endLayer clusterFitResult =
          FitPoints fit (hitsInLayers startLayer endLayer orderedCaloHitList)
            clusterFitResult ∧
        ((hitsInLayers startLayer endLayer orderedCaloHitList).length < 2 →
          FitLayers positionIsInitialized cellSizeIsZero fit orderedCaloHitList startLayer
              endLayer clusterFitResult =
            Except.ok (StatusCode.INVALID_PARAMETER, clusterFitResult))) ∧
      ((∃ h ∈ hitsInLayers startLayer endLayer orderedCaloHitList,
          IsFitPoint positionIsInitialized cellSizeIsZero h = false) →
        fitLayersLoop positionIsInitialized cellSizeIsZero startLayer endLayer
            orderedCaloHitList [] =
          Except.error StatusCode.INVALID_PARAMETER ∧
        FitLayers positionIsInitialized cellSizeIsZero fit orderedCaloHitList startLayer
            endLayer clusterFitResult =
          Except.error StatusCode.INVALID_PARAMETER)) := by
  refine ⟨?_, ?_⟩
  · intro h
    simp [FitLayers, h]
  · intro hlt hord h2 hbig
    have hge : ¬ startLayer ≥ endLayer := not_le.2 hlt
    have hmod : orderedCaloHitList.length % 4294967296 = orderedCaloHitList.length :=
      Nat.mod_eq_of_lt hbig
    have h0 : ¬ 0 = orderedCaloHitList.length := by omega
    have h1 : ¬ orderedCaloHitList.length < 2 := by omega
    refine ⟨?_, ?_, ?_⟩
    · intro h
      simp only [hitsInLayers, List.mem_flatMap, List.mem_filter, decide_eq_true_eq]
      constructor
      · rintro ⟨e, ⟨hmem, hs, he⟩, hh⟩
        exact ⟨e.1, e.2, hmem, hs, he, hh⟩
      · rintro ⟨L, hits, hmem, hs, he, hh⟩
        exact ⟨(L, hits), ⟨hmem, hs, he⟩, hh⟩
    · intro hall
      have hloop : fitLayersLoop positionIsInitialized cellSizeIsZero startLayer endLayer
          orderedCaloHitList [] =
          Except.ok (hitsInLayers startLayer endLayer orderedCaloHitList) := by
        rw [fitLayersLoop_eq positionIsInitialized cellSizeIsZero startLayer endLayer
          orderedCaloHitList hord hall []]
        simp
      have hfit : FitLayers positionIsInitialized cellSizeIsZero fit orderedCaloHitList
          startLayer endLayer clusterFitResult =
          FitPoints fit (hitsInLayers startLayer endLayer orderedCaloHitList)
            clusterFitResult := by
        simp only [FitLayers, hge, if_false, hmod, h0, h1, hloop]
      refine ⟨hloop, hfit, ?_⟩
      intro hfew
      rw [hfit]
      have : (hitsInLayers startLayer endLayer orderedCaloHitList).length ≤ 1 := by omega
      simp [FitPoints, this]
    · intro hbad
      have hloop := fitLayersLoop_error positionIsInitialized cellSizeIsZero startLayer
        endLayer orderedCaloHitList hord hbad []
      refine ⟨hloop, ?_⟩
      simp only [FitLayers, hge, if_false, hmod, h0, h1, hloop]

/-- C23 (amended), at a concrete cluster: when no hit of `exampleHits` has a cell size of
zero, the range from layer 2 to layer 5 passes the hits 20, 21 and 50 to `FitPoints`, the
range from layer 3 to layer 6 passes hit 50 alone and the call returns
`STATUS_CODE_INVALID_PARAMETER`, and so does the single layer range from 2 to 2; when hit 50
has a cell size of zero, the range from layer 2 to layer 5 throws. -/
theorem FitLayers_spec_witness :
    (fitLayersLoop examplePositionIsInitialized exampleCellSizeIsNeverZero 2 5 exampleHits [] =
        Except.ok (hitsInLayers 2 5 exampleHits) ∧
      FitLayers examplePositionIsInitialized exampleCellSizeIsNeverZero exampleFit exampleHits
          2 5 0 =
        FitPoints exampleFit (hitsInLayers 2 5 exampleHits) 0 ∧
      ((hitsInLayers 2 5 exampleHits).length < 2 →
        FitLayers examplePositionIsInitialized exampleCellSizeIsNeverZero exampleFit
            exampleHits 2 5 0 =
          Except.ok (StatusCode.INVALID_PARAMETER, 0))) ∧
    hitsInLayers 2 5 exampleHits = [20, 21, 50] ∧
    FitLayers examplePositionIsInitialized exampleCellSizeIsNeverZero exampleFit exampleHits
        2 5 0 =
      Except.ok (StatusCode.SUCCESS, 3) ∧
    FitLayers examplePositionIsInitialized exampleCellSizeIsNeverZero exampleFit exampleHits
        3 6 0 =
      Except.ok (StatusCode.INVALID_PARAMETER, 0) ∧
    FitLayers examplePositionIsInitialized exampleCellSizeIsNeverZero exampleFit exampleHits
        2 2 0 =
      Except.ok (StatusCode.INVALID_PARAMETER, 0) ∧
    FitLayers examplePositionIsInitialized exampleCellSizeIsZero exampleFit exampleHits 2 5 0 =
      Except.error StatusCode.INVALID_PARAMETER :=
  ⟨((FitLayers_spec examplePositionIsInitialized exampleCellSizeIsNeverZero exampleFit
      exampleHits 2 5 0).2 (by decide) (by decide) (by decide) (by decide)).2.1 (by decide),
   by decide, rfl,
   (((FitLayers_spec examplePositionIsInitialized exampleCellSizeIsNeverZero exampleFit
      exampleHits 3 6 0).2 (by decide) (by decide) (by decide) (by decide)).2.1
      (by decide)).2.2 (by decide),
   (FitLayers_spec examplePositionIsInitialized exampleCellSizeIsNeverZero exampleFit
      exampleHits 2 2 0).1 (by decide),
   (((FitLayers_spec examplePositionIsInitialized exampleCellSizeIsZero exampleFit
      exampleHits 2 5 0).2 (by decide) (by decide) (by decide) (by decide)).2.2
      (by decide)).2⟩

/-- One pass of the loop over the hits keeps what the loops have established. -/
theorem trackStateHitStep_found {R : Type} [LinearOrder R] (acc : Accessors (FloatValue R))
    (fm : R) (trackState : TrackState) (parallelDistanceCut : FloatValue R)
    (s : Bool × FloatValue R) (pCaloHit : CaloHit) (h : DistanceFound fm s) :
    DistanceFound fm (trackStateHitStep acc trackState parallelDistanceCut s pCaloHit) := by
  unfold trackStateHitStep
  split_ifs with h1 h2
  · exact h
  · obtain ⟨q, hq, hle, _⟩ := h
    rw [hq] at h2
    obtain ⟨x, hx, hlt⟩ := FloatValue.eq_number_of_lt _ _ h2
    exact ⟨x, hx, le_of_lt (lt_of_lt_of_le hlt hle), fun _ => lt_of_lt_of_le hlt hle⟩
  · exact h

/-- The loop over the hits of a layer keeps what the loops have established. -/
theorem foldl_trackStateHitStep_found {R : Type} [LinearOrder R]
    (acc : Accessors (FloatValue R)) (fm : R) (trackState : TrackState)
    (parallelDistanceCut : FloatValue R) (hits : List CaloHit) :
    ∀ s : Bool × FloatValue R, DistanceFound fm s →
      DistanceFound fm
        (hits.foldl (trackStateHitStep acc trackState parallelDistanceCut) s) := by
  induction hits with
  | nil =>
    intro s h
    exact h
  | cons hit rest ih =>
    intro s h
    exact ih _ (trackStateHitStep_found acc fm trackState parallelDistanceCut s hit h)

/-- The loop over the layers keeps what the loops have established. -/
theorem trackStateLayerLoop_found {R : Type} [LinearOrder R] (acc : Accessors (FloatValue R))
    (fm : R) (trackState : TrackState) (maxSearchLayer : PseudoLayer)
    (parallelDistanceCut : FloatValue R) (orderedCaloHitList : OrderedCaloHitList) :
    ∀ s : Bool × FloatValue R, DistanceFound fm s →
      DistanceFound fm
        (trackStateLayerLoop acc trackState maxSearchLayer parallelDistanceCut
          orderedCaloHitList s) := by
  induction orderedCaloHitList with
  | nil =>
    intro s h
    exact h
  | cons e rest ih =>
    intro s h
    obtain ⟨pseudoLayer, hits⟩ := e
    unfold trackStateLayerLoop
    split_ifs with hbreak
    · exact h
    · exact ih _
        (foldl_trackStateHitStep_found acc fm trackState parallelDistanceCut hits s h)

/-- The helper for a track state either fails with `STATUS_CODE_NOT_FOUND`, leaving
`trackClusterDistance` as it was, or succeeds with a number below the largest float. -/
theorem GetTrackClusterDistanceOfTrackState_result {R : Type} [LinearOrder R]
    (acc : Accessors (FloatValue R)) (fm : R) (trackState : TrackState) (pCluster : Cluster)
    (maxSearchLayer : PseudoLayer) (parallelDistanceCut trackClusterDistance : FloatValue R) :
    GetTrackClusterDistanceOfTrackState acc (FloatValue.number fm) trackState pCluster
        maxSearchLayer parallelDistanceCut trackClusterDistance =
      (StatusCode.NOT_FOUND, trackClusterDistance) ∨
    ∃ x, GetTrackClusterDistanceOfTrackState acc (FloatValue.number fm) trackState pCluster
        maxSearchLayer parallelDistanceCut trackClusterDistance =
      (StatusCode.SUCCESS, FloatValue.number x) ∧ x < fm := by
  have hloop := trackStateLayerLoop_found acc fm trackState maxSearchLayer
    parallelDistanceCut (acc.GetOrderedCaloHitList pCluster) (false, FloatValue.number fm)
    ⟨fm, rfl, le_refl fm, fun hc => absurd hc Bool.false_ne_true⟩
  unfold GetTrackClusterDistanceOfTrackState
  dsimp only
  split_ifs with hguard hfound
  · exact Or.inl rfl
  · exact Or.inl rfl
  · obtain ⟨q, hq, _, hlt⟩ := hloop
    refine Or.inr ⟨q, ?_, hlt (by simpa using hfound)⟩
    rw [hq]

/-- One pass of the loop over the calorimeter projections: once a distance has been found,
`minDistance` is a number below the largest float. -/
theorem projectionStep_found {R : Type} [LinearOrder R] (acc : Accessors (FloatValue R))
    (fm : R) (pCluster : Cluster) (maxSearchLayer : PseudoLayer)
    (parallelDistanceCut : FloatValue R) (s : Bool × FloatValue R)
    (pTrackState : TrackState)
    (h : s.1 = true → ∃ x, s.2 = FloatValue.number x ∧ x < fm) :
    (projectionStep acc (FloatValue.number fm) pCluster maxSearchLayer parallelDistanceCut s
        pTrackState).1 = true →
      ∃ x, (projectionStep acc (FloatValue.number fm) pCluster maxSearchLayer
        parallelDistanceCut s pTrackState).2 = FloatValue.number x ∧ x < fm := by
  unfold projectionStep
  dsimp only
  rcases GetTrackClusterDistanceOfTrackState_result acc fm pTrackState pCluster
    maxSearchLayer parallelDistanceCut s.2 with hfail | ⟨x, hok, hlt⟩
  · rw [hfail]
    simp only [reduceCtorEq, if_false]
    exact h
  · rw [hok]
    simp only [if_true]
    intro _
    exact ⟨x, rfl, hlt⟩

/-- The loop over the calorimeter projections: once a distance has been found, `minDistance`
is a number below the largest float. -/
theorem foldl_projectionStep_found {R : Type} [LinearOrder R] (acc : Accessors (FloatValue R))
    (fm : R) (pCluster : Cluster) (maxSearchLayer : PseudoLayer)
    (parallelDistanceCut : FloatValue R) (trackStateList : List TrackState) :
    ∀ s : Bool × FloatValue R, (s.1 = true → ∃ x, s.2 = FloatValue.number x ∧ x < fm) →
      (trackStateList.foldl
        (projectionStep acc (FloatValue.number fm) pCluster maxSearchLayer parallelDistanceCut)
        s).1 = true →
      ∃ x, (trackStateList.foldl
        (projectionStep acc (FloatValue.number fm) pCluster maxSearchLayer parallelDistanceCut)
        s).2 = FloatValue.number x ∧ x < fm := by
  induction trackStateList with
  | nil =>
    intro s h
    exact h
  | cons ts rest ih =>
    intro s h
    exact ih _ (projectionStep_found acc fm pCluster maxSearchLayer parallelDistanceCut s ts h)

/-- When `GetTrackClusterDistance` succeeds for a track and a cluster, the distance it gives
is a number, not a NaN, and it is below the largest float. -/
theorem GetTrackClusterDistance_success {R : Type} [LinearOrder R]
    (acc : Accessors (FloatValue R)) (fm : R) (pTrack : Track) (pCluster : Cluster)
    (maxSearchLayer : PseudoLayer) (parallelDistanceCut trackClusterDistance : FloatValue R)
    (h : (GetTrackClusterDistance acc (FloatValue.number fm) pTrack pCluster maxSearchLayer
      parallelDistanceCut trackClusterDistance).1 = StatusCode.SUCCESS) :
    ∃ x, (GetTrackClusterDistance acc (FloatValue.number fm) pTrack pCluster maxSearchLayer
      parallelDistanceCut trackClusterDistance).2 = FloatValue.number x ∧ x < fm := by
  have hfirst : (decide (StatusCode.SUCCESS =
        (GetTrackClusterDistanceOfTrackState acc (FloatValue.number fm)
          (acc.GetTrackStateAtECal pTrack) pCluster maxSearchLayer parallelDistanceCut
          (FloatValue.number fm)).1) = true) →
      ∃ x, (GetTrackClusterDistanceOfTrackState acc (FloatValue.number fm)
          (acc.GetTrackStateAtECal pTrack) pCluster maxSearchLayer parallelDistanceCut
          (FloatValue.number fm)).2 = FloatValue.number x ∧ x < fm := by
    rcases GetTrackClusterDistanceOfTrackState_result acc fm (acc.GetTrackStateAtECal pTrack)
      pCluster maxSearchLayer parallelDistanceCut (FloatValue.number fm) with
      hfail | ⟨x, hok, hlt⟩
    · rw [hfail]
      intro hc
      simp at hc
    · rw [hok]
      intro _
      exact ⟨x, rfl, hlt⟩
  have hloop := foldl_projectionStep_found acc fm pCluster maxSearchLayer parallelDistanceCut
    (acc.GetCalorimeterProjections pTrack)
    (decide (StatusCode.SUCCESS =
        (GetTrackClusterDistanceOfTrackState acc (FloatValue.number fm)
          (acc.GetTrackStateAtECal pTrack) pCluster maxSearchLayer parallelDistanceCut
          (FloatValue.number fm)).1),
      (GetTrackClusterDistanceOfTrackState acc (FloatValue.number fm)
        (acc.GetTrackStateAtECal pTrack) pCluster maxSearchLayer parallelDistanceCut
        (FloatValue.number fm)).2) hfirst
  unfold GetTrackClusterDistance at h ⊢
  dsimp only at h ⊢
  split_ifs at h ⊢ with hguard hfound
  exact hloop (by simpa using hfound)

end ClusterHelper

namespace TrackClusterAssociationAlgorithm

/-- One pass of the loop body extends the invariant by the cluster visited. -/
theorem searchStep_invariant {D E : Type} [LT D] [∀ a b : D, Decidable (a < b)] [LT E]
    [∀ a b : E, Decidable (a < b)]
    (GetTrackClusterDistance : Track → Cluster → D → StatusCode × D)
    (GetHadronicEnergy : Cluster → E) (floatMax : D) (m_lowEnergyCut : E) (pTrack : Track)
    (seen : ClusterList) (s : Search D) (pCluster : Cluster)
    (h : SearchInvariant GetTrackClusterDistance GetHadronicEnergy floatMax m_lowEnergyCut
      pTrack seen s) :
    SearchInvariant GetTrackClusterDistance GetHadronicEnergy floatMax m_lowEnergyCut pTrack
      (seen ++ [pCluster])
      (searchStep GetTrackClusterDistance GetHadronicEnergy floatMax m_lowEnergyCut pTrack s
        pCluster) := by
  obtain ⟨hbest, hlow⟩ := h
  have hbest' : ∀ c, s.pBestCluster = some c →
      c ∈ seen ++ [pCluster] ∧
      GetTrackClusterDistance pTrack c floatMax = (StatusCode.SUCCESS, s.minDistance) ∧
      m_lowEnergyCut < GetHadronicEnergy c :=
    fun c hc => ⟨List.mem_append_left _ (hbest c hc).1, (hbest c hc).2⟩
  have hlow' : ∀ c, s.pBestLowEnergyCluster = some c →
      c ∈ seen ++ [pCluster] ∧
      GetTrackClusterDistance pTrack c floatMax =
        (StatusCode.SUCCESS, s.minLowEnergyDistance) ∧
      ¬ m_lowEnergyCut < GetHadronicEnergy c :=
    fun c hc => ⟨List.mem_append_left _ (hlow c hc).1, (hlow c hc).2⟩
  unfold searchStep
  dsimp only
  split_ifs with hst hen hd hd
  · exact ⟨hbest', hlow'⟩
  · refine ⟨?_, hlow'⟩
    intro c hc
    have hcc : pCluster = c := Option.some.inj hc
    subst hcc
    exact ⟨by simp, Prod.ext (not_not.1 hst).symm rfl, hen⟩
  · exact ⟨hbest', hlow'⟩
  · refine ⟨hbest', ?_⟩
    intro c hc
    have hcc : pCluster = c := Option.some.inj hc
    subst hcc
    exact ⟨by simp, Prod.ext (not_not.1 hst).symm rfl, hen⟩
  · exact ⟨hbest', hlow'⟩

/-- The loop over the clusters extends the invariant by the clusters visited. -/
theorem foldl_searchStep_invariant {D E : Type} [LT D] [∀ a b : D, Decidable (a < b)] [LT E]
    [∀ a b : E, Decidable (a < b)]
    (GetTrackClusterDistance : Track → Cluster → D → StatusCode × D)
    (GetHadronicEnergy : Cluster → E) (floatMax : D) (m_lowEnergyCut : E) (pTrack : Track)
    (rest : ClusterList) :
    ∀ (seen : ClusterList) (s : Search D),
      SearchInvariant GetTrackClusterDistance GetHadronicEnergy floatMax m_lowEnergyCut
        pTrack seen s →
      SearchInvariant GetTrackClusterDistance GetHadronicEnergy floatMax m_lowEnergyCut
        pTrack (seen ++ rest)
        (rest.foldl
          (searchStep GetTrackClusterDistance GetHadronicEnergy floatMax m_lowEnergyCut pTrack)
          s) := by
  induction rest with
  | nil =>
    intro seen s h
    simpa using h
  | cons c cs ih =>
    intro seen s h
    have hstep := searchStep_invariant GetTrackClusterDistance GetHadronicEnergy floatMax
      m_lowEnergyCut pTrack seen s c h
    have := ih (seen ++ [c]) _ hstep
    simpa [List.append_assoc] using this

/-- The invariant holds of the variables after the loop, for the whole cluster list. -/
theorem search_invariant {D E : Type} [LT D] [∀ a b : D, Decidable (a < b)] [LT E]
    [∀ a b : E, Decidable (a < b)]
    (GetTrackClusterDistance : Track → Cluster → D → StatusCode × D)
    (GetHadronicEnergy : Cluster → E) (floatMax : D) (m_lowEnergyCut : E) (pTrack : Track)
    (pClusterList : ClusterList) :
    SearchInvariant GetTrackClusterDistance GetHadronicEnergy floatMax m_lowEnergyCut pTrack
      pClusterList
      (search GetTrackClusterDistance GetHadronicEnergy floatMax m_lowEnergyCut pTrack
        pClusterList) := by
  have h0 : SearchInvariant GetTrackClusterDistance GetHadronicEnergy floatMax m_lowEnergyCut
      pTrack []
      { pBestCluster := none, pBestLowEnergyCluster := none,
        minDistance := floatMax, minLowEnergyDistance := floatMax } :=
    ⟨fun c hc => absurd hc (by simp), fun c hc => absurd hc (by simp)⟩
  have := foldl_searchStep_invariant GetTrackClusterDistance GetHadronicEnergy floatMax
    m_lowEnergyCut pTrack pClusterList [] _ h0
  simpa [search] using this

/-- A matched cluster is a cluster of the list for which `GetTrackClusterDistance` succeeds
with a distance below `m_maxTrackClusterDistance`. -/
theorem matchedCluster_distance {D E : Type} [LT D] [∀ a b : D, Decidable (a < b)] [LT E]
    [∀ a b : E, Decidable (a < b)]
    (GetTrackClusterDistance : Track → Cluster → D → StatusCode × D)
    (GetHadronicEnergy : Cluster → E) (floatMax : D) (m_lowEnergyCut : E)
    (m_maxTrackClusterDistance : D) (pTrack : Track) (pClusterList : ClusterList)
    (c : Cluster)
    (h : matchedCluster m_maxTrackClusterDistance
      (search GetTrackClusterDistance GetHadronicEnergy floatMax m_lowEnergyCut pTrack
        pClusterList) = some c) :
    c ∈ pClusterList ∧
    ∃ d, GetTrackClusterDistance pTrack c floatMax = (StatusCode.SUCCESS, d) ∧
      d < m_maxTrackClusterDistance := by
  obtain ⟨hbest, hlow⟩ := search_invariant GetTrackClusterDistance
    GetHadronicEnergy floatMax m_lowEnergyCut pTrack pClusterList
  unfold matchedCluster at h
  split_ifs at h with h1 h2
  · obtain ⟨hmem, hdist, _⟩ := hbest c h
    exact ⟨hmem, _, hdist, h1.1⟩
  · obtain ⟨hmem, hdist, _⟩ := hlow c h
    exact ⟨hmem, _, hdist, h2.1⟩

/-- The calls made by the loop over the tracks: the calls made before it, followed by at most
one call for each track visited, each for a cluster of the list inside the distance cut. -/
theorem trackLoop_calls {D E : Type} [LT D] [∀ a b : D, Decidable (a < b)] [LT E]
    [∀ a b : E, Decidable (a < b)]
    (AddTrackClusterAssociation : List (Track × Cluster) → Track → Cluster → StatusCode)
    (GetTrackClusterDistance : Track → Cluster → D → StatusCode × D)
    (GetHadronicEnergy : Cluster → E) (floatMax : D) (m_lowEnergyCut : E)
    (m_maxTrackClusterDistance : D) (pClusterList : ClusterList) (tracks : List Track) :
    ∀ calls : List (Track × Cluster),
      ∃ added : List (Track × Cluster),
        (trackLoop AddTrackClusterAssociation GetTrackClusterDistance GetHadronicEnergy
          floatMax m_lowEnergyCut m_maxTrackClusterDistance pClusterList tracks calls).2 =
          calls ++ added ∧
        (∀ a ∈ added, a.1 ∈ tracks ∧ a.2 ∈ pClusterList ∧
          ∃ d, GetTrackClusterDistance a.1 a.2 floatMax = (StatusCode.SUCCESS, d) ∧
            d < m_maxTrackClusterDistance) ∧
        (∀ t, (added.filter (fun a => decide (a.1 = t))).length ≤ tracks.count t) := by
  induction tracks with
  | nil =>
    intro calls
    exact ⟨[], by simp [trackLoop], by simp, by simp⟩
  | cons pTrack rest ih =>
    intro calls
    unfold trackLoop
    cases hm : matchedCluster m_maxTrackClusterDistance
        (search GetTrackClusterDistance GetHadronicEnergy floatMax m_lowEnergyCut pTrack
          pClusterList) with
    | none =>
      obtain ⟨added, heq, hgood, hcount⟩ := ih calls
      refine ⟨added, heq, ?_, ?_⟩
      · intro a ha
        obtain ⟨h1, h2⟩ := hgood a ha
        exact ⟨List.mem_cons_of_mem _ h1, h2⟩
      · intro t
        have := hcount t
        rw [List.count_cons]
        omega
    | some c =>
      have hc := matchedCluster_distance GetTrackClusterDistance GetHadronicEnergy floatMax
        m_lowEnergyCut m_maxTrackClusterDistance pTrack pClusterList c hm
      have hone : ∀ t, ([(pTrack, c)].filter (fun a => decide (a.1 = t))).length =
          if (pTrack == t) = true then 1 else 0 := by
        intro t
        by_cases hpt : pTrack = t <;> simp [List.filter_cons, hpt]
      by_cases hret : returnsResultIfNot StatusCode.SUCCESS
          (AddTrackClusterAssociation calls pTrack c) = true
      · simp only [hret, if_true]
        refine ⟨[(pTrack, c)], rfl, ?_, ?_⟩
        · intro a ha
          rw [List.mem_singleton] at ha
          subst ha
          exact ⟨List.mem_cons_self _ _, hc⟩
        · intro t
          rw [hone t, List.count_cons]
          omega
      · simp only [hret, if_false, Bool.false_eq_true]
        obtain ⟨added, heq, hgood, hcount⟩ := ih (calls ++ [(pTrack, c)])
        refine ⟨(pTrack, c) :: added, ?_, ?_, ?_⟩
        · rw [heq]
          simp
        · intro a ha
          rcases List.mem_cons.1 ha with h0 | h0
          · subst h0
            exact ⟨List.mem_cons_self _ _, hc⟩
          · obtain ⟨h1, h2⟩ := hgood a h0
            exact ⟨List.mem_cons_of_mem _ h1, h2⟩
        · intro t
          have h1 := hcount t
          have h2 := hone t
          rw [List.count_cons]
          by_cases hpt : pTrack = t
          · simp only [List.filter_cons, hpt, decide_True, if_true, List.length_cons,
              beq_self_eq_true]
            simp only [hpt] at h1
            omega
          · have hb : (pTrack == t) = false := by simpa using hpt
            simp only [List.filter_cons, hpt, decide_False, hb, if_false, Bool.false_eq_true]
            omega

/-- C21: for every track list and cluster list, every call of `AddTrackClusterAssociation`
that `Run` makes is for a track of the track list and a cluster of the cluster list for
which `GetTrackClusterDistance` succeeds with a distance strictly below
`m_maxTrackClusterDistance`; `Run` makes no more calls for a track than the track occurs in
the track list, so at most one for each track of a list without repetition. -/
theorem Run_distance_cut {D E : Type} [LT D] [∀ a b : D, Decidable (a < b)] [LT E]
    [∀ a b : E, Decidable (a < b)]
    (GetCurrentTrackList : StatusCode × List Track)
    (GetCurrentClusterList : StatusCode × ClusterList)
    (RemoveAllTrackClusterAssociations : StatusCode)
    (AddTrackClusterAssociation : List (Track × Cluster) → Track → Cluster → StatusCode)
    (GetTrackClusterDistance : Track → Cluster → D → StatusCode × D)
    (GetHadronicEnergy : Cluster → E) (floatMax : D) (m_lowEnergyCut : E)
    (m_maxTrackClusterDistance : D) :
    (∀ a ∈ (Run GetCurrentTrackList GetCurrentClusterList RemoveAllTrackClusterAssociations
        AddTrackClusterAssociation GetTrackClusterDistance GetHadronicEnergy floatMax
        m_lowEnergyCut m_maxTrackClusterDistance).2,
      a.1 ∈ GetCurrentTrackList.2 ∧ a.2 ∈ GetCurrentClusterList.2 ∧
      ∃ d, GetTrackClusterDistance a.1 a.2 floatMax = (StatusCode.SUCCESS, d) ∧
        d < m_maxTrackClusterDistance) ∧
    (∀ t, ((Run GetCurrentTrackList GetCurrentClusterList RemoveAllTrackClusterAssociations
        AddTrackClusterAssociation GetTrackClusterDistance GetHadronicEnergy floatMax
        m_lowEnergyCut m_maxTrackClusterDistance).2.filter
          (fun a => decide (a.1 = t))).length ≤ GetCurrentTrackList.2.count t) ∧
    (GetCurrentTrackList.2.Nodup →
      ∀ t, ((Run GetCurrentTrackList GetCurrentClusterList RemoveAllTrackClusterAssociations
        AddTrackClusterAssociation GetTrackClusterDistance GetHadronicEnergy floatMax
        m_lowEnergyCut m_maxTrackClusterDistance).2.filter
          (fun a => decide (a.1 = t))).length ≤ 1) := by
  have key : (∀ a ∈ (Run GetCurrentTrackList GetCurrentClusterList
        RemoveAllTrackClusterAssociations AddTrackClusterAssociation GetTrackClusterDistance
        GetHadronicEnergy floatMax m_lowEnergyCut m_maxTrackClusterDistance).2,
      a.1 ∈ GetCurrentTrackList.2 ∧ a.2 ∈ GetCurrentClusterList.2 ∧
      ∃ d, GetTrackClusterDistance a.1 a.2 floatMax = (StatusCode.SUCCESS, d) ∧
        d < m_maxTrackClusterDistance) ∧
    (∀ t, ((Run GetCurrentTrackList GetCurrentClusterList RemoveAllTrackClusterAssociations
        AddTrackClusterAssociation GetTrackClusterDistance GetHadronicEnergy floatMax
        m_lowEnergyCut m_maxTrackClusterDistance).2.filter
          (fun a => decide (a.1 = t))).length ≤ GetCurrentTrackList.2.count t) := by
    unfold Run
    split_ifs
    · simp
    · simp
    · simp
    · obtain ⟨added, heq, hgood, hcount⟩ := trackLoop_calls AddTrackClusterAssociation
        GetTrackClusterDistance GetHadronicEnergy floatMax m_lowEnergyCut
        m_maxTrackClusterDistance GetCurrentClusterList.2 GetCurrentTrackList.2 []
      rw [heq, List.nil_append]
      exact ⟨hgood, hcount⟩
  refine ⟨key.1, key.2, ?_⟩
  intro hnodup t
  exact le_trans (key.2 t) (List.nodup_iff_count_le_one.1 hnodup t)

/-- C21, at a concrete input: for the tracks 0 and 1, the clusters 1, 2 and 4, the energy
cut 2 and the distance cut 10, `Run` succeeds with one call for each track, both for
cluster 2 at distance 5. -/
theorem Run_distance_cut_witness :
    (∀ t, ((Run (StatusCode.SUCCESS, [0, 1]) (StatusCode.SUCCESS, [1, 2, 4])
        StatusCode.SUCCESS exampleAddAssociation exampleDistance exampleEnergy
        (FloatValue.number 1000) (FloatValue.number 2) (FloatValue.number 10)).2.filter
          (fun a => decide (a.1 = t))).length ≤ 1) ∧
    Run (StatusCode.SUCCESS, [0, 1]) (StatusCode.SUCCESS, [1, 2, 4]) StatusCode.SUCCESS
        exampleAddAssociation exampleDistance exampleEnergy (FloatValue.number 1000)
        (FloatValue.number 2) (FloatValue.number 10) =
      (StatusCode.SUCCESS, [(0, 2), (1, 2)]) :=
  ⟨(Run_distance_cut (StatusCode.SUCCESS, [0, 1]) (StatusCode.SUCCESS, [1, 2, 4])
      StatusCode.SUCCESS exampleAddAssociation exampleDistance exampleEnergy
      (FloatValue.number 1000) (FloatValue.number 2) (FloatValue.number 10)).2.2
      (by decide),
   by decide⟩

/-- The nearest cluster of a list with a first cluster. -/
theorem nearest_cons {D : Type} [LinearOrder D] (distance : Cluster → Option D) (c : Cluster)
    (cs : ClusterList) :
    nearest distance (c :: cs) =
      match distance c, nearest distance cs with
      | none, later => later
      | some d, none => some (c, d)
      | some d, some (c', d') => if d ≤ d' then some (c, d) else some (c', d') := rfl

/-- A loop of `keepNearer` keeps the nearest cluster of the list when that cluster is nearer
than what was kept before, and otherwise what was kept before. -/
theorem foldl_keepNearer {D : Type} [LinearOrder D] (distance : Cluster → Option D)
    (pClusterList : ClusterList) :
    ∀ kept : Option Cluster × D,
      pClusterList.foldl (keepNearer distance) kept =
        match nearest distance pClusterList with
        | some r => if r.2 < kept.2 then (some r.1, r.2) else kept
        | none => kept := by
  induction pClusterList with
  | nil =>
    intro kept
    rfl
  | cons x xs ih =>
    intro kept
    rw [List.foldl_cons, ih, nearest_cons]
    unfold keepNearer
    cases hx : distance x with
    | none => simp
    | some d =>
      cases hn : nearest distance xs with
      | none =>
        by_cases hd : d < kept.2 <;> simp [hd]
      | some r =>
        obtain ⟨c', d'⟩ := r
        by_cases hd : d < kept.2
        · by_cases hle : d ≤ d'
          · have : ¬ d' < d := not_lt.2 hle
            simp [hd, hle, this]
          · have hlt : d' < d := not_le.1 hle
            have : d' < kept.2 := lt_trans hlt hd
            simp [hd, hle, hlt, this]
        · by_cases hle : d ≤ d'
          · have : ¬ d' < kept.2 := fun hc => hd (lt_of_le_of_lt hle hc)
            simp [hd, hle, this]
          · simp [hd, hle]

/-- What `nearest` gives: a cluster of the list that competes, strictly nearer than every
competing cluster before it in the list and at least as near as every competing cluster
after it; and nothing exactly when no cluster of the list competes. -/
theorem nearest_first_minimum {D : Type} [LinearOrder D] (distance : Cluster → Option D)
    (pClusterList : ClusterList) :
    (∀ c d, nearest distance pClusterList = some (c, d) →
      ∃ before after : ClusterList,
        pClusterList = before ++ c :: after ∧ distance c = some d ∧
        (∀ c' ∈ before, ∀ d', distance c' = some d' → d < d') ∧
        (∀ c' ∈ after, ∀ d', distance c' = some d' → d ≤ d')) ∧
    (nearest distance pClusterList = none → ∀ c ∈ pClusterList, distance c = none) := by
  induction pClusterList with
  | nil =>
    refine ⟨?_, ?_⟩
    · intro c d h
      simp [nearest] at h
    · intro _ c hc
      simp at hc
  | cons x xs ih =>
    obtain ⟨ihsome, ihnone⟩ := ih
    rw [nearest_cons]
    cases hx : distance x with
    | none =>
      refine ⟨?_, ?_⟩
      · intro c d h
        obtain ⟨before, after, hsplit, hc, hb, ha⟩ := ihsome c d h
        refine ⟨x :: before, after, by rw [hsplit]; rfl, hc, ?_, ha⟩
        intro c' hc' d' hd'
        rcases List.mem_cons.1 hc' with h0 | h0
        · rw [h0, hx] at hd'
          simp at hd'
        · exact hb c' h0 d' hd'
      · intro h c hc
        rcases List.mem_cons.1 hc with h0 | h0
        · rw [h0]
          exact hx
        · exact ihnone h c h0
    | some dx =>
      cases hn : nearest distance xs with
      | none =>
        refine ⟨?_, ?_⟩
        · intro c d h
          simp only [Option.some.injEq, Prod.mk.injEq] at h
          obtain ⟨h1, h2⟩ := h
          subst h1
          subst h2
          refine ⟨[], xs, rfl, hx, by simp, ?_⟩
          intro c' hc' d' hd'
          rw [ihnone hn c' hc'] at hd'
          simp at hd'
        · intro h
          simp at h
      | some r =>
        obtain ⟨c0, d0⟩ := r
        obtain ⟨before, after, hsplit, hc0, hb, ha⟩ := ihsome c0 d0 hn
        have hall : ∀ c' ∈ xs, ∀ d', distance c' = some d' → d0 ≤ d' := by
          intro c' hc' d' hd'
          rw [hsplit] at hc'
          rcases List.mem_append.1 hc' with h0 | h0
          · exact le_of_lt (hb c' h0 d' hd')
          · rcases List.mem_cons.1 h0 with h1 | h1
            · rw [h1, hc0] at hd'
              exact le_of_eq (Option.some.inj hd')
            · exact ha c' h1 d' hd'
        refine ⟨?_, ?_⟩
        · intro c d h
          by_cases hle : dx ≤ d0
          · simp only [hle, if_true, Option.some.injEq, Prod.mk.injEq] at h
            obtain ⟨h1, h2⟩ := h
            subst h1
            subst h2
            refine ⟨[], xs, rfl, hx, by simp, ?_⟩
            intro c' hc' d' hd'
            exact le_trans hle (hall c' hc' d' hd')
          · simp only [hle, if_false, Option.some.injEq, Prod.mk.injEq] at h
            obtain ⟨h1, h2⟩ := h
            subst h1
            subst h2
            refine ⟨x :: before, after, by rw [hsplit]; rfl, hc0, ?_, ha⟩
            intro c' hc' d' hd'
            rcases List.mem_cons.1 hc' with h0 | h0
            · rw [h0, hx] at hd'
              rw [← Option.some.inj hd']
              exact not_le.1 hle
            · exact hb c' h0 d' hd'
        · intro h
          by_cases hle : dx ≤ d0 <;> simp [hle] at h

/-- The nearest cluster depends only on the distances with which the clusters of the list
compete. -/
theorem nearest_congr {D : Type} [LinearOrder D] (f g : Cluster → Option D)
    (pClusterList : ClusterList) (h : ∀ c ∈ pClusterList, f c = g c) :
    nearest f pClusterList = nearest g pClusterList := by
  induction pClusterList with
  | nil => rfl
  | cons x xs ih =>
    rw [nearest_cons, nearest_cons, h x (List.mem_cons_self _ _),
      ih (fun c hc => h c (List.mem_cons_of_mem _ hc))]

/-- The loop body treats `pBestCluster` and `minDistance` as `keepNearer` does for the
clusters above the energy cut, and `pBestLowEnergyCluster` and `minLowEnergyDistance` as
`keepNearer` does for the clusters that are not above it. -/
theorem searchStep_keepNearer {R E : Type} [LinearOrder R] [LT E]
    [∀ a b : E, Decidable (a < b)]
    (GetTrackClusterDistance : Track → Cluster → FloatValue R → StatusCode × FloatValue R)
    (GetHadronicEnergy : Cluster → E) (floatMax : FloatValue R) (m_lowEnergyCut : E)
    (pTrack : Track) (s : Search (FloatValue R)) (pCluster : Cluster)
    (keptHigh keptLow : Option Cluster × R)
    (hhigh : (s.pBestCluster, s.minDistance) = keptAsFloat keptHigh)
    (hlow : (s.pBestLowEnergyCluster, s.minLowEnergyDistance) = keptAsFloat keptLow) :
    ((searchStep GetTrackClusterDistance GetHadronicEnergy floatMax m_lowEnergyCut pTrack s
        pCluster).pBestCluster,
     (searchStep GetTrackClusterDistance GetHadronicEnergy floatMax m_lowEnergyCut pTrack s
        pCluster).minDistance) =
      keptAsFloat (keepNearer (highCandidate GetTrackClusterDistance GetHadronicEnergy
        floatMax m_lowEnergyCut pTrack) keptHigh pCluster) ∧
    ((searchStep GetTrackClusterDistance GetHadronicEnergy floatMax m_lowEnergyCut pTrack s
        pCluster).pBestLowEnergyCluster,
     (searchStep GetTrackClusterDistance GetHadronicEnergy floatMax m_lowEnergyCut pTrack s
        pCluster).minLowEnergyDistance) =
      keptAsFloat (keepNearer (notAboveCandidate GetTrackClusterDistance GetHadronicEnergy
        floatMax m_lowEnergyCut pTrack) keptLow pCluster) := by
  obtain ⟨best, bestLow, min, minLow⟩ := s
  obtain ⟨keptHighCluster, keptHighDistance⟩ := keptHigh
  obtain ⟨keptLowCluster, keptLowDistance⟩ := keptLow
  simp only [keptAsFloat, Prod.mk.injEq] at hhigh hlow
  obtain ⟨hb, hm⟩ := hhigh
  obtain ⟨hbl, hml⟩ := hlow
  subst hb hm hbl hml
  unfold searchStep keepNearer highCandidate notAboveCandidate keptAsFloat
  by_cases hst : (GetTrackClusterDistance pTrack pCluster floatMax).1 = StatusCode.SUCCESS
  · have hst' : ¬ StatusCode.SUCCESS ≠ (GetTrackClusterDistance pTrack pCluster floatMax).1 :=
      fun hc => hc hst.symm
    by_cases hen : m_lowEnergyCut < GetHadronicEnergy pCluster
    · cases hd : (GetTrackClusterDistance pTrack pCluster floatMax).2 with
      | number x =>
        by_cases hx : x < keptHighDistance
        · have hx' : FloatValue.number x < FloatValue.number keptHighDistance := hx
          simp [hst, hen, hd, hx, hx', FloatValue.toOption]
        · have hx' : ¬ FloatValue.number x < FloatValue.number keptHighDistance := hx
          simp [hst, hen, hd, hx, hx', FloatValue.toOption]
      | NaN =>
        have hx' : ¬ (FloatValue.NaN : FloatValue R) < FloatValue.number keptHighDistance :=
          FloatValue.not_NaN_lt _
        simp [hst, hen, hd, hx', FloatValue.toOption]
    · cases hd : (GetTrackClusterDistance pTrack pCluster floatMax).2 with
      | number x =>
        by_cases hx : x < keptLowDistance
        · have hx' : FloatValue.number x < FloatValue.number keptLowDistance := hx
          simp [hst, hen, hd, hx, hx', FloatValue.toOption]
        · have hx' : ¬ FloatValue.number x < FloatValue.number keptLowDistance := hx
          simp [hst, hen, hd, hx, hx', FloatValue.toOption]
      | NaN =>
        have hx' : ¬ (FloatValue.NaN : FloatValue R) < FloatValue.number keptLowDistance :=
          FloatValue.not_NaN_lt _
        simp [hst, hen, hd, hx', FloatValue.toOption]
  · have hst' : StatusCode.SUCCESS ≠ (GetTrackClusterDistance pTrack pCluster floatMax).1 :=
      fun hc => hst hc.symm
    simp [hst, hst']

/-- The loop over the clusters, seen through `keepNearer`. -/
theorem foldl_searchStep_keepNearer {R E : Type} [LinearOrder R] [LT E]
    [∀ a b : E, Decidable (a < b)]
    (GetTrackClusterDistance : Track → Cluster → FloatValue R → StatusCode × FloatValue R)
    (GetHadronicEnergy : Cluster → E) (floatMax : FloatValue R) (m_lowEnergyCut : E)
    (pTrack : Track) (pClusterList : ClusterList) :
    ∀ (s : Search (FloatValue R)) (keptHigh keptLow : Option Cluster × R),
      (s.pBestCluster, s.minDistance) = keptAsFloat keptHigh →
      (s.pBestLowEnergyCluster, s.minLowEnergyDistance) = keptAsFloat keptLow →
      ((pClusterList.foldl (searchStep GetTrackClusterDistance GetHadronicEnergy floatMax
          m_lowEnergyCut pTrack) s).pBestCluster,
       (pClusterList.foldl (searchStep GetTrackClusterDistance GetHadronicEnergy floatMax
          m_lowEnergyCut pTrack) s).minDistance) =
        keptAsFloat (pClusterList.foldl (keepNearer (highCandidate GetTrackClusterDistance
          GetHadronicEnergy floatMax m_lowEnergyCut pTrack)) keptHigh) ∧
      ((pClusterList.foldl (searchStep GetTrackClusterDistance GetHadronicEnergy floatMax
          m_lowEnergyCut pTrack) s).pBestLowEnergyCluster,
       (pClusterList.foldl (searchStep GetTrackClusterDistance GetHadronicEnergy floatMax
          m_lowEnergyCut pTrack) s).minLowEnergyDistance) =
        keptAsFloat (pClusterList.foldl (keepNearer (notAboveCandidate
          GetTrackClusterDistance GetHadronicEnergy floatMax m_lowEnergyCut pTrack))
          keptLow) := by
  induction pClusterList with
  | nil =>
    intro s keptHigh keptLow hhigh hlow
    exact ⟨hhigh, hlow⟩
  | cons c cs ih =>
    intro s keptHigh keptLow hhigh hlow
    have hstep := searchStep_keepNearer GetTrackClusterDistance GetHadronicEnergy floatMax
      m_lowEnergyCut pTrack s c keptHigh keptLow hhigh hlow
    simp only [List.foldl_cons]
    exact ih _ _ _ hstep.1 hstep.2

/-- The variables after the loop over the clusters, in terms of `nearest`. -/
theorem search_nearest {R E : Type} [LinearOrder R] [LT E] [∀ a b : E, Decidable (a < b)]
    (GetTrackClusterDistance : Track → Cluster → FloatValue R → StatusCode × FloatValue R)
    (GetHadronicEnergy : Cluster → E) (fm : R) (m_lowEnergyCut : E) (pTrack : Track)
    (pClusterList : ClusterList) :
    ((search GetTrackClusterDistance GetHadronicEnergy (FloatValue.number fm) m_lowEnergyCut
        pTrack pClusterList).pBestCluster,
     (search GetTrackClusterDistance GetHadronicEnergy (FloatValue.number fm) m_lowEnergyCut
        pTrack pClusterList).minDistance) =
      keptAsFloat (match nearest (highCandidate GetTrackClusterDistance GetHadronicEnergy
          (FloatValue.number fm) m_lowEnergyCut pTrack) pClusterList with
        | some r => if r.2 < fm then (some r.1, r.2) else (none, fm)
        | none => (none, fm)) ∧
    ((search GetTrackClusterDistance GetHadronicEnergy (FloatValue.number fm) m_lowEnergyCut
        pTrack pClusterList).pBestLowEnergyCluster,
     (search GetTrackClusterDistance GetHadronicEnergy (FloatValue.number fm) m_lowEnergyCut
        pTrack pClusterList).minLowEnergyDistance) =
      keptAsFloat (match nearest (notAboveCandidate GetTrackClusterDistance GetHadronicEnergy
          (FloatValue.number fm) m_lowEnergyCut pTrack) pClusterList with
        | some r => if r.2 < fm then (some r.1, r.2) else (none, fm)
        | none => (none, fm)) := by
  have h := foldl_searchStep_keepNearer GetTrackClusterDistance GetHadronicEnergy
    (FloatValue.number fm) m_lowEnergyCut pTrack pClusterList
    { pBestCluster := none, pBestLowEnergyCluster := none,
      minDistance := FloatValue.number fm, minLowEnergyDistance := FloatValue.number fm }
    (none, fm) (none, fm) rfl rfl
  unfold search
  rw [h.1, h.2, foldl_keepNearer, foldl_keepNearer]
  exact ⟨rfl, rfl⟩

/-- What the distance cut lets through of the cluster kept by one half of the search, when
the nearest cluster found is below the largest float. -/
theorem kept_inside_cut {R : Type} [LinearOrder R] (found : Option (Cluster × R)) (fm : R)
    (m_maxTrackClusterDistance : FloatValue R) (hfound : ∀ r, found = some r → r.2 < fm)
    (kept : Option Cluster × FloatValue R)
    (hkept : kept =
      keptAsFloat (match found with
        | some r => if r.2 < fm then (some r.1, r.2) else (none, fm)
        | none => (none, fm))) :
    (kept.2 < m_maxTrackClusterDistance ∧ none ≠ kept.1 ↔
      ∃ r, found.filter
          (fun r => decide (FloatValue.number r.2 < m_maxTrackClusterDistance)) = some r ∧
        kept.1 = some r.1) ∧
    (¬ (kept.2 < m_maxTrackClusterDistance ∧ none ≠ kept.1) ↔
      found.filter
        (fun r => decide (FloatValue.number r.2 < m_maxTrackClusterDistance)) = none) := by
  subst hkept
  cases found with
  | none => simp [keptAsFloat]
  | some r =>
    have hfm : r.2 < fm := hfound r rfl
    by_cases hcut : FloatValue.number r.2 < m_maxTrackClusterDistance
    · simp [Option.filter, keptAsFloat, hcut, hfm]
    · simp [Option.filter, keptAsFloat, hcut, hfm]

/-- A distance with which a cluster competes, given by `ClusterHelper::GetTrackClusterDistance`,
is the number the helper succeeds with, and it is below the largest float. -/
theorem candidate_of_success {R : Type} [LinearOrder R]
    (acc : ClusterHelper.Accessors (FloatValue R)) (fm : R)
    (m_maxSearchLayer : ClusterHelper.PseudoLayer) (m_parallelDistanceCut : FloatValue R)
    (pTrack : Track) (pCluster : Cluster) (d : R)
    (hok : (callGetTrackClusterDistance acc (FloatValue.number fm) m_maxSearchLayer
      m_parallelDistanceCut pTrack pCluster (FloatValue.number fm)).1 = StatusCode.SUCCESS)
    (hd : (callGetTrackClusterDistance acc (FloatValue.number fm) m_maxSearchLayer
      m_parallelDistanceCut pTrack pCluster (FloatValue.number fm)).2.toOption = some d) :
    callGetTrackClusterDistance acc (FloatValue.number fm) m_maxSearchLayer
        m_parallelDistanceCut pTrack pCluster (FloatValue.number fm) =
      (StatusCode.SUCCESS, FloatValue.number d) ∧ d < fm := by
  obtain ⟨x, hx, hlt⟩ := ClusterHelper.GetTrackClusterDistance_success acc fm pTrack pCluster
    m_maxSearchLayer m_parallelDistanceCut (FloatValue.number fm) hok
  have hx' : (callGetTrackClusterDistance acc (FloatValue.number fm) m_maxSearchLayer
      m_parallelDistanceCut pTrack pCluster (FloatValue.number fm)).2 =
      FloatValue.number x := hx
  rw [hx'] at hd
  have hxd : x = d := Option.some.inj hd
  subst hxd
  exact ⟨Prod.ext hok hx', hlt⟩

/-- A cluster competes above the energy cut with the distance `d` exactly when the helper
succeeds for it with the number `d` and its hadronic energy is above the cut; the distance
is then below the largest float. -/
theorem highCandidate_eq_some {R E : Type} [LinearOrder R] [LT E]
    [∀ a b : E, Decidable (a < b)]
    (acc : ClusterHelper.Accessors (FloatValue R)) (GetHadronicEnergy : Cluster → E) (fm : R)
    (m_lowEnergyCut : E) (m_maxSearchLayer : ClusterHelper.PseudoLayer)
    (m_parallelDistanceCut : FloatValue R) (pTrack : Track) (pCluster : Cluster) (d : R) :
    highCandidate (callGetTrackClusterDistance acc (FloatValue.number fm) m_maxSearchLayer
        m_parallelDistanceCut) GetHadronicEnergy (FloatValue.number fm) m_lowEnergyCut pTrack
        pCluster = some d ↔
      (callGetTrackClusterDistance acc (FloatValue.number fm) m_maxSearchLayer
          m_parallelDistanceCut pTrack pCluster (FloatValue.number fm) =
        (StatusCode.SUCCESS, FloatValue.number d) ∧
      m_lowEnergyCut < GetHadronicEnergy pCluster ∧ d < fm) := by
  unfold highCandidate
  constructor
  · intro h
    split_ifs at h with hif
    obtain ⟨heq, hlt⟩ := candidate_of_success acc fm m_maxSearchLayer m_parallelDistanceCut
      pTrack pCluster d hif.1 h
    exact ⟨heq, hif.2, hlt⟩
  · rintro ⟨heq, hen, _⟩
    rw [heq]
    simp [hen, FloatValue.toOption]

/-- A cluster competes among the clusters not above the energy cut with the distance `d`
exactly when the helper succeeds for it with the number `d` and its hadronic energy is not
above the cut; the distance is then below the largest float. -/
theorem notAboveCandidate_eq_some {R E : Type} [LinearOrder R] [LT E]
    [∀ a b : E, Decidable (a < b)]
    (acc : ClusterHelper.Accessors (FloatValue R)) (GetHadronicEnergy : Cluster → E) (fm : R)
    (m_lowEnergyCut : E) (m_maxSearchLayer : ClusterHelper.PseudoLayer)
    (m_parallelDistanceCut : FloatValue R) (pTrack : Track) (pCluster : Cluster) (d : R) :
    notAboveCandidate (callGetTrackClusterDistance acc (FloatValue.number fm) m_maxSearchLayer
        m_parallelDistanceCut) GetHadronicEnergy (FloatValue.number fm) m_lowEnergyCut pTrack
        pCluster = some d ↔
      (callGetTrackClusterDistance acc (FloatValue.number fm) m_maxSearchLayer
          m_parallelDistanceCut pTrack pCluster (FloatValue.number fm) =
        (StatusCode.SUCCESS, FloatValue.number d) ∧
      ¬ m_lowEnergyCut < GetHadronicEnergy pCluster ∧ d < fm) := by
  unfold notAboveCandidate
  constructor
  · intro h
    split_ifs at h with hif
    obtain ⟨heq, hlt⟩ := candidate_of_success acc fm m_maxSearchLayer m_parallelDistanceCut
      pTrack pCluster d hif.1 h
    exact ⟨heq, hif.2, hlt⟩
  · rintro ⟨heq, hen, _⟩
    rw [heq]
    simp [hen, FloatValue.toOption]

/-- For energies that are numbers, a hadronic energy is at or below the cut exactly when it
is not above it, so the clusters compete with the same distances in both readings. -/
theorem lowCandidate_eq_notAboveCandidate {R S : Type} [LinearOrder S]
    (GetTrackClusterDistance : Track → Cluster → FloatValue R → StatusCode × FloatValue R)
    (GetHadronicEnergy : Cluster → FloatValue S) (floatMax : FloatValue R)
    (m_lowEnergyCut : FloatValue S) (pTrack : Track) (pCluster : Cluster)
    (hcut : m_lowEnergyCut ≠ FloatValue.NaN)
    (hen : GetHadronicEnergy pCluster ≠ FloatValue.NaN) :
    lowCandidate GetTrackClusterDistance GetHadronicEnergy floatMax m_lowEnergyCut pTrack
        pCluster =
      notAboveCandidate GetTrackClusterDistance GetHadronicEnergy floatMax m_lowEnergyCut
        pTrack pCluster := by
  have hiff : GetHadronicEnergy pCluster ≤ m_lowEnergyCut ↔
      ¬ m_lowEnergyCut < GetHadronicEnergy pCluster := by
    cases he : GetHadronicEnergy pCluster with
    | NaN => exact absurd he hen
    | number e =>
      cases hc : m_lowEnergyCut with
      | NaN => exact absurd hc hcut
      | number c =>
        rw [FloatValue.number_le_number, FloatValue.number_lt_number]
        exact not_lt.symm
  unfold lowCandidate notAboveCandidate
  simp only [hiff]

/-- The nearest cluster competes with the distance it is given with. -/
theorem nearest_competes {D : Type} [LinearOrder D] (distance : Cluster → Option D)
    (pClusterList : ClusterList) (r : Cluster × D)
    (h : nearest distance pClusterList = some r) : distance r.1 = some r.2 := by
  obtain ⟨_, _, _, hc, _, _⟩ := (nearest_first_minimum distance pClusterList).1 r.1 r.2 h
  exact hc

/-- C22 (as stated, refuted): the hadronic energy of cluster 6 is a NaN, so it is neither
above the energy cut 2 nor at or below it, and `GetTrackClusterDistance` succeeds for it with
the distance 5, below the distance cut 10. For the cluster list that holds cluster 6 alone,
`Run` matches cluster 6 to the track, whereas the claim gives no cluster: the `else` branch
of line 56 takes every cluster whose energy is not above the cut. -/
theorem matchedCluster_counterexample :
    exampleEnergy 6 = FloatValue.NaN ∧
    ¬ FloatValue.number 2 < exampleEnergy 6 ∧
    ¬ exampleEnergy 6 ≤ FloatValue.number 2 ∧
    exampleDistance 0 6 (FloatValue.number 1000) =
      (StatusCode.SUCCESS, FloatValue.number 5) ∧
    matchedCluster (FloatValue.number 10)
        (search exampleDistance exampleEnergy (FloatValue.number 1000) (FloatValue.number 2) 0
          [6]) = some 6 ∧
    nearestMatch
        (highCandidate exampleDistance exampleEnergy (FloatValue.number 1000)
          (FloatValue.number 2) 0)
        (lowCandidate exampleDistance exampleEnergy (FloatValue.number 1000)
          (FloatValue.number 2) 0)
        (FloatValue.number 10) [6] = none := by
  decide

/-- C22 (amended): with the distances given by `ClusterHelper::GetTrackClusterDistance`, the
cluster matched to a track is the nearest cluster with hadronic energy above `m_lowEnergyCut`
if its distance is below `m_maxTrackClusterDistance`; otherwise the nearest cluster whose
hadronic energy is not above `m_lowEnergyCut` (at or below it, or not comparable with it
because one of the two is a NaN) if its distance is below `m_maxTrackClusterDistance`;
otherwise none. When neither `m_lowEnergyCut` nor the hadronic energy of a cluster of the
list is a NaN, the second kind is the clusters with hadronic energy at or below
`m_lowEnergyCut`. The nearest cluster of either kind is strictly nearer than every cluster
of its kind before it in the list and at least as near as every one after it, so among
clusters at equal distance the first in list order wins. -/
theorem matchedCluster_eq_nearestMatch {R S : Type} [LinearOrder R] [LinearOrder S]
    (acc : ClusterHelper.Accessors (FloatValue R))
    (GetHadronicEnergy : Cluster → FloatValue S) (fm : R) (m_lowEnergyCut : FloatValue S)
    (m_maxTrackClusterDistance : FloatValue R) (m_maxSearchLayer : ClusterHelper.PseudoLayer)
    (m_parallelDistanceCut : FloatValue R) (pTrack : Track) (pClusterList : ClusterList) :
    matchedCluster m_maxTrackClusterDistance
        (search (callGetTrackClusterDistance acc (FloatValue.number fm) m_maxSearchLayer
          m_parallelDistanceCut) GetHadronicEnergy (FloatValue.number fm) m_lowEnergyCut
          pTrack pClusterList) =
      nearestMatch
        (highCandidate (callGetTrackClusterDistance acc (FloatValue.number fm)
          m_maxSearchLayer m_parallelDistanceCut) GetHadronicEnergy (FloatValue.number fm)
          m_lowEnergyCut pTrack)
        (notAboveCandidate (callGetTrackClusterDistance acc (FloatValue.number fm)
          m_maxSearchLayer m_parallelDistanceCut) GetHadronicEnergy (FloatValue.number fm)
          m_lowEnergyCut pTrack)
        m_maxTrackClusterDistance pClusterList ∧
    (m_lowEnergyCut ≠ FloatValue.NaN →
      (∀ c ∈ pClusterList, GetHadronicEnergy c ≠ FloatValue.NaN) →
      matchedCluster m_maxTrackClusterDistance
          (search (callGetTrackClusterDistance acc (FloatValue.number fm) m_maxSearchLayer
            m_parallelDistanceCut) GetHadronicEnergy (FloatValue.number fm) m_lowEnergyCut
            pTrack pClusterList) =
        nearestMatch
          (highCandidate (callGetTrackClusterDistance acc (FloatValue.number fm)
            m_maxSearchLayer m_parallelDistanceCut) GetHadronicEnergy (FloatValue.number fm)
            m_lowEnergyCut pTrack)
          (lowCandidate (callGetTrackClusterDistance acc (FloatValue.number fm)
            m_maxSearchLayer m_parallelDistanceCut) GetHadronicEnergy (FloatValue.number fm)
            m_lowEnergyCut pTrack)
          m_maxTrackClusterDistance pClusterList) ∧
    (∀ c d, nearest (highCandidate (callGetTrackClusterDistance acc (FloatValue.number fm)
        m_maxSearchLayer m_parallelDistanceCut) GetHadronicEnergy (FloatValue.number fm)
        m_lowEnergyCut pTrack) pClusterList = some (c, d) →
      ∃ before after : ClusterList,
        pClusterList = before ++ c :: after ∧
        callGetTrackClusterDistance acc (FloatValue.number fm) m_maxSearchLayer
            m_parallelDistanceCut pTrack c (FloatValue.number fm) =
          (StatusCode.SUCCESS, FloatValue.number d) ∧
        m_lowEnergyCut < GetHadronicEnergy c ∧
        (∀ c' ∈ before, ∀ d',
          callGetTrackClusterDistance acc (FloatValue.number fm) m_maxSearchLayer
              m_parallelDistanceCut pTrack c' (FloatValue.number fm) =
            (StatusCode.SUCCESS, FloatValue.number d') →
          m_lowEnergyCut < GetHadronicEnergy c' → d < d') ∧
        (∀ c' ∈ after, ∀ d',
          callGetTrackClusterDistance acc (FloatValue.number fm) m_maxSearchLayer
              m_parallelDistanceCut pTrack c' (FloatValue.number fm) =
            (StatusCode.SUCCESS, FloatValue.number d') →
          m_lowEnergyCut < GetHadronicEnergy c' → d ≤ d')) ∧
    (∀ c d, nearest (notAboveCandidate (callGetTrackClusterDistance acc (FloatValue.number fm)
        m_maxSearchLayer m_parallelDistanceCut) GetHadronicEnergy (FloatValue.number fm)
        m_lowEnergyCut pTrack) pClusterList = some (c, d) →
      ∃ before after : ClusterList,
        pClusterList = before ++ c :: after ∧
        callGetTrackClusterDistance acc (FloatValue.number fm) m_maxSearchLayer
            m_parallelDistanceCut pTrack c (FloatValue.number fm) =
          (StatusCode.SUCCESS, FloatValue.number d) ∧
        ¬ m_lowEnergyCut < GetHadronicEnergy c ∧
        (∀ c' ∈ before, ∀ d',
          callGetTrackClusterDistance acc (FloatValue.number fm) m_maxSearchLayer
              m_parallelDistanceCut pTrack c' (FloatValue.number fm) =
            (StatusCode.SUCCESS, FloatValue.number d') →
          ¬ m_lowEnergyCut < GetHadronicEnergy c' → d < d') ∧
        (∀ c' ∈ after, ∀ d',
          callGetTrackClusterDistance acc (FloatValue.number fm) m_maxSearchLayer
              m_parallelDistanceCut pTrack c' (FloatValue.number fm) =
            (StatusCode.SUCCESS, FloatValue.number d') →
          ¬ m_lowEnergyCut < GetHadronicEnergy c' → d ≤ d')) := by
  have hmatch : matchedCluster m_maxTrackClusterDistance
        (search (callGetTrackClusterDistance acc (FloatValue.number fm) m_maxSearchLayer
          m_parallelDistanceCut) GetHadronicEnergy (FloatValue.number fm) m_lowEnergyCut
          pTrack pClusterList) =
      nearestMatch
        (highCandidate (callGetTrackClusterDistance acc (FloatValue.number fm)
          m_maxSearchLayer m_parallelDistanceCut) GetHadronicEnergy (FloatValue.number fm)
          m_lowEnergyCut pTrack)
        (notAboveCandidate (callGetTrackClusterDistance acc (FloatValue.number fm)
          m_maxSearchLayer m_parallelDistanceCut) GetHadronicEnergy (FloatValue.number fm)
          m_lowEnergyCut pTrack)
        m_maxTrackClusterDistance pClusterList := by
    obtain ⟨hhigh, hlow⟩ := search_nearest (callGetTrackClusterDistance acc
      (FloatValue.number fm) m_maxSearchLayer m_parallelDistanceCut) GetHadronicEnergy fm
      m_lowEnergyCut pTrack pClusterList
    have hfh : ∀ r, nearest (highCandidate (callGetTrackClusterDistance acc
        (FloatValue.number fm) m_maxSearchLayer m_parallelDistanceCut) GetHadronicEnergy
        (FloatValue.number fm) m_lowEnergyCut pTrack) pClusterList = some r → r.2 < fm :=
      fun r hr => ((highCandidate_eq_some acc GetHadronicEnergy fm m_lowEnergyCut
        m_maxSearchLayer m_parallelDistanceCut pTrack r.1 r.2).1
        (nearest_competes _ pClusterList r hr)).2.2
    have hfl : ∀ r, nearest (notAboveCandidate (callGetTrackClusterDistance acc
        (FloatValue.number fm) m_maxSearchLayer m_parallelDistanceCut) GetHadronicEnergy
        (FloatValue.number fm) m_lowEnergyCut pTrack) pClusterList = some r → r.2 < fm :=
      fun r hr => ((notAboveCandidate_eq_some acc GetHadronicEnergy fm m_lowEnergyCut
        m_maxSearchLayer m_parallelDistanceCut pTrack r.1 r.2).1
        (nearest_competes _ pClusterList r hr)).2.2
    obtain ⟨hh1, hh2⟩ := kept_inside_cut _ fm m_maxTrackClusterDistance hfh _ hhigh
    obtain ⟨hl1, hl2⟩ := kept_inside_cut _ fm m_maxTrackClusterDistance hfl _ hlow
    unfold matchedCluster nearestMatch
    by_cases hc : (search (callGetTrackClusterDistance acc (FloatValue.number fm)
        m_maxSearchLayer m_parallelDistanceCut) GetHadronicEnergy (FloatValue.number fm)
        m_lowEnergyCut pTrack pClusterList).minDistance < m_maxTrackClusterDistance ∧
        none ≠ (search (callGetTrackClusterDistance acc (FloatValue.number fm)
          m_maxSearchLayer m_parallelDistanceCut) GetHadronicEnergy (FloatValue.number fm)
          m_lowEnergyCut pTrack pClusterList).pBestCluster
    · obtain ⟨r, hr, hbest⟩ := hh1.1 hc
      rw [if_pos hc]
      simp only [hr]
      exact hbest
    · have hnone := hh2.1 hc
      rw [if_neg hc]
      simp only [hnone]
      by_cases hcl : (search (callGetTrackClusterDistance acc (FloatValue.number fm)
          m_maxSearchLayer m_parallelDistanceCut) GetHadronicEnergy (FloatValue.number fm)
          m_lowEnergyCut pTrack pClusterList).minLowEnergyDistance <
            m_maxTrackClusterDistance ∧
          none ≠ (search (callGetTrackClusterDistance acc (FloatValue.number fm)
            m_maxSearchLayer m_parallelDistanceCut) GetHadronicEnergy (FloatValue.number fm)
            m_lowEnergyCut pTrack pClusterList).pBestLowEnergyCluster
      · obtain ⟨r, hr, hbest⟩ := hl1.1 hcl
        rw [if_pos hcl]
        simp only [hr]
        exact hbest
      · have hnonel := hl2.1 hcl
        rw [if_neg hcl]
        simp only [hnonel]
  refine ⟨hmatch, ?_, ?_, ?_⟩
  · intro hcut hen
    rw [hmatch]
    unfold nearestMatch
    rw [nearest_congr (lowCandidate (callGetTrackClusterDistance acc (FloatValue.number fm)
        m_maxSearchLayer m_parallelDistanceCut) GetHadronicEnergy (FloatValue.number fm)
        m_lowEnergyCut pTrack)
      (notAboveCandidate (callGetTrackClusterDistance acc (FloatValue.number fm)
        m_maxSearchLayer m_parallelDistanceCut) GetHadronicEnergy (FloatValue.number fm)
        m_lowEnergyCut pTrack) pClusterList
      (fun c hc => lowCandidate_eq_notAboveCandidate _ GetHadronicEnergy _ m_lowEnergyCut
        pTrack c hcut (hen c hc))]
  · intro c d h
    obtain ⟨before, after, hsplit, hc, hb, ha⟩ :=
      (nearest_first_minimum _ pClusterList).1 c d h
    obtain ⟨heq, hen, hlt⟩ := (highCandidate_eq_some acc GetHadronicEnergy fm m_lowEnergyCut
      m_maxSearchLayer m_parallelDistanceCut pTrack c d).1 hc
    have hcand : ∀ c' d',
        callGetTrackClusterDistance acc (FloatValue.number fm) m_maxSearchLayer
            m_parallelDistanceCut pTrack c' (FloatValue.number fm) =
          (StatusCode.SUCCESS, FloatValue.number d') →
        m_lowEnergyCut < GetHadronicEnergy c' →
        highCandidate (callGetTrackClusterDistance acc (FloatValue.number fm)
          m_maxSearchLayer m_parallelDistanceCut) GetHadronicEnergy (FloatValue.number fm)
          m_lowEnergyCut pTrack c' = some d' := by
      intro c' d' h1 h2
      unfold highCandidate
      rw [h1]
      simp [h2, FloatValue.toOption]
    exact ⟨before, after, hsplit, heq, hen,
      fun c' hc' d' h1 h2 => hb c' hc' d' (hcand c' d' h1 h2),
      fun c' hc' d' h1 h2 => ha c' hc' d' (hcand c' d' h1 h2)⟩
  · intro c d h
    obtain ⟨before, after, hsplit, hc, hb, ha⟩ :=
      (nearest_first_minimum _ pClusterList).1 c d h
    obtain ⟨heq, hen, hlt⟩ := (notAboveCandidate_eq_some acc GetHadronicEnergy fm
      m_lowEnergyCut m_maxSearchLayer m_parallelDistanceCut pTrack c d).1 hc
    have hcand : ∀ c' d',
        callGetTrackClusterDistance acc (FloatValue.number fm) m_maxSearchLayer
            m_parallelDistanceCut pTrack c' (FloatValue.number fm) =
          (StatusCode.SUCCESS, FloatValue.number d') →
        ¬ m_lowEnergyCut < GetHadronicEnergy c' →
        notAboveCandidate (callGetTrackClusterDistance acc (FloatValue.number fm)
          m_maxSearchLayer m_parallelDistanceCut) GetHadronicEnergy (FloatValue.number fm)
          m_lowEnergyCut pTrack c' = some d' := by
      intro c' d' h1 h2
      unfold notAboveCandidate
      rw [h1]
      simp [h2, FloatValue.toOption]
    exact ⟨before, after, hsplit, heq, hen,
      fun c' hc' d' h1 h2 => hb c' hc' d' (hcand c' d' h1 h2),
      fun c' hc' d' h1 h2 => ha c' hc' d' (hcand c' d' h1 h2)⟩

/-- C22 (amended), at a concrete input: with the energy cut 2 and the distance cut 10, among
the clusters 1 (energy 2, distance 1), 5 and 2 (energy 10, distance 5) and 4 (no distance)
the matched cluster is 5, above the energy cut and first of the two at distance 5, although
cluster 1 is strictly closer; with the distance cut 4 it is cluster 1, and with the distance
cut 1 there is none. -/
theorem matchedCluster_eq_nearestMatch_witness :
    matchedCluster (FloatValue.number 10)
        (search exampleDistance exampleEnergy (FloatValue.number 1000) (FloatValue.number 2) 0
          [1, 5, 2, 4]) =
      nearestMatch
        (highCandidate exampleDistance exampleEnergy (FloatValue.number 1000)
          (FloatValue.number 2) 0)
        (lowCandidate exampleDistance exampleEnergy (FloatValue.number 1000)
          (FloatValue.number 2) 0)
        (FloatValue.number 10) [1, 5, 2, 4] ∧
    matchedCluster (FloatValue.number 10)
        (search exampleDistance exampleEnergy (FloatValue.number 1000) (FloatValue.number 2) 0
          [1, 5, 2, 4]) = some 5 ∧
    matchedCluster (FloatValue.number 4)
        (search exampleDistance exampleEnergy (FloatValue.number 1000) (FloatValue.number 2) 0
          [1, 5, 2, 4]) = some 1 ∧
    matchedCluster (FloatValue.number 1)
        (search exampleDistance exampleEnergy (FloatValue.number 1000) (FloatValue.number 2) 0
          [1, 5, 2, 4]) = none :=
  ⟨(matchedCluster_eq_nearestMatch ClusterHelper.exampleAccessors exampleEnergy 1000
      (FloatValue.number 2) (FloatValue.number 10) 10 (FloatValue.number 100) 0
      [1, 5, 2, 4]).2.1 (by decide) (by decide),
   by decide, by decide, by decide⟩

end TrackClusterAssociationAlgorithm

end pandora
